import Mathlib

/-!
# Verification of the eventing-kafka distributed-channel test constants and
# of the dispatcher design built on them

Sources embedded here: `pkg/channel/distributed/common/testing/constants.go`
(namespace `EventingKafka`) and the vendored
`google.golang.org/genproto/googleapis/monitoring/v3/group_service.pb.go`
(namespace `Monitoring`).
The Go constants are string constants; a raw (backquoted) Go string is written
as a Lean string with explicit `\n`, and Go `+` on strings is `++`.
-/

namespace EventingKafka

/-! ## constants.go -/

def OldClientId : String := "TestOldClientId"
def NewClientId : String := "TestNewClientId"
def OldUsername : String := "TestOldUsername"
def NewUsername : String := "TestNewUsername"
def OldPassword : String := "TestOldPassword"
def NewPassword : String := "TestNewPassword"

def KnativeEventingNamespace : String := "knative-eventing"
def SettingsConfigMapName : String := "config-kafka"
def SaramaSettingsConfigKey : String := "sarama"
def EventingKafkaSettingsConfigKey : String := "eventing-kafka"

def DispatcherReplicas : String := "3"
def DispatcherRetryInitial : String := "5000"
def DispatcherRetry : String := "500000"

def ConfigAdminTimeout : String := "10000000000"
def ConfigNetKeepAlive : String := "30000000000"
def ConfigMetadataRefreshFrequency : String := "300000000000"
def ConfigConsumerOffsetsAutoCommitInterval : String := "5000000000"
def ConfigConsumerOffsetsRetention : String := "604800000000000"
def ConfigProducerIdempotent : String := "false"
def ConfigProducerRequiredAcks : String := "-1"

def TestEKConfig : String :=
  "\ndispatcher:\n  cpuLimit: 500m\n  cpuRequest: 300m\n  memoryLimit: 128Mi\n  memoryRequest: 50Mi\n  replicas: "
    ++ DispatcherReplicas ++ "\n  retryInitialIntervalMillis: "
    ++ DispatcherRetryInitial ++ "\n  retryTimeMillis: "
    ++ DispatcherRetry ++ "\n  retryExponentialBackoff: true\n"

def OldSaramaConfig : String :=
  "\nNet:\n  TLS:\n    Enable: true\n  SASL:\n    Enable: true\n    Mechanism: PLAIN\n    Version: 1\n    User: "
    ++ OldUsername ++ "\n    Password: "
    ++ OldPassword ++ "\nMetadata:\n  RefreshFrequency: 300000000000\n"

def NewSaramaConfig : String :=
  "\nVersion: 2.3.0\nNet:\n  TLS:\n    Enable: true\n  SASL:\n    Enable: true\n    Mechanism: PLAIN\n    Version: 1\n    User: "
    ++ NewUsername ++ "\n    Password: "
    ++ NewPassword ++ "\nMetadata:\n  RefreshFrequency: 300000000000\nClientID: "
    ++ NewClientId ++ "\n"

def SaramaDefaultConfigYaml : String :=
  "\nAdmin:\n  Timeout: "
    ++ ConfigAdminTimeout ++ "\nNet:\n  KeepAlive: "
    ++ ConfigNetKeepAlive ++ "\nMetadata:\n  RefreshFrequency: "
    ++ ConfigMetadataRefreshFrequency ++ "\nConsumer:\n  Offsets:\n    AutoCommit:\n      Interval: "
    ++ ConfigConsumerOffsetsAutoCommitInterval ++ "\n    Retention: "
    ++ ConfigConsumerOffsetsRetention ++ "\n  Return:\n    Errors: true\nProducer:\n  Idempotent: "
    ++ ConfigProducerIdempotent ++ "\n  RequiredAcks: "
    ++ ConfigProducerRequiredAcks ++ "\n  Return:\n    Successes: true\n"

/-! ## Reading the key/value tree of a settings blob

The blobs above are block-style YAML mappings: one `key: value` or `key:` per
line, nesting by indentation with spaces.  The reader below flattens such a
text into its leaves, each with the path of keys leading to it. All functions
are structurally recursive on `List Char`. -/

/-- Lines of a text, split at line feeds. -/
def splitLines : List Char → List (List Char)
  | [] => [[]]
  | c :: cs =>
    match splitLines cs with
    | [] => if c = '\n' then [[]] else [[c]]
    | l :: ls => if c = '\n' then [] :: l :: ls else (c :: l) :: ls

/-- Number of leading spaces of a line. -/
def indentOf : List Char → Nat
  | ' ' :: cs => indentOf cs + 1
  | _ => 0

/-- The text before the first colon and the text after it, when there is a colon. -/
def splitColon : List Char → Option (List Char × List Char)
  | [] => none
  | c :: cs =>
    if c = ':' then some ([], cs)
    else match splitColon cs with
      | none => none
      | some (k, v) => some (c :: k, v)

/-- One line as (indentation, key, value); a line without a colon carries no entry. -/
def parseLine (l : List Char) : Option (Nat × List Char × List Char) :=
  match splitColon (l.dropWhile (fun c => c = ' ')) with
  | none => none
  | some (k, v) => some (indentOf l, k, v.dropWhile (fun c => c = ' '))

/-- Walks the lines keeping the stack of enclosing keys (innermost first, each
with its indentation) and emits every leaf with its full path. -/
def flatten : List (Nat × List Char) → List (List Char) → List (List String × String)
  | _, [] => []
  | stack, l :: ls =>
    match parseLine l with
    | none => flatten stack ls
    | some (n, k, v) =>
      let outer := stack.dropWhile (fun e => n ≤ e.1)
      let here := (n, k) :: outer
      if v = [] then flatten here ls
      else ((here.reverse.map (fun e => String.mk e.2)), String.mk v) :: flatten here ls

/-- The leaves of a settings blob, in order of appearance. -/
def yamlEntries (doc : String) : List (List String × String) :=
  flatten [] (splitLines doc.data)

/-- All values stored under a path of keys. -/
def yamlValues (doc : String) (path : List String) : List String :=
  ((yamlEntries doc).filter (fun e => e.1 = path)).map (fun e => e.2)

/-- The value stored under a path of keys, when the path occurs. -/
def yamlLookup (doc : String) (path : List String) : Option String :=
  (yamlValues doc path).head?

/-- Decimal digit value of a character. -/
def digitVal (c : Char) : Option Nat :=
  if '0'.toNat ≤ c.toNat ∧ c.toNat ≤ '9'.toNat then some (c.toNat - '0'.toNat) else none

/-- Reads digits left to right onto an accumulator. -/
def parseDigits : Nat → List Char → Option Nat
  | acc, [] => some acc
  | acc, c :: cs =>
    match digitVal c with
    | none => none
    | some d => parseDigits (10 * acc + d) cs

/-- A non-empty string of decimal digits as a natural number. -/
def parseNat (s : String) : Option Nat :=
  match s.data with
  | [] => none
  | cs => parseDigits 0 cs

/-! ## Dispatcher retry policy (spec §3, §4.3) -/

/-- Modelled from the spec: the retryPolicy of a Subscription (§3); the
Dispatcher is not among the source files. Durations are in milliseconds, as in
the dispatcher fields `retryInitialIntervalMillis` and `retryTimeMillis`. -/
structure RetryPolicy where
  initialInterval : Nat
  maxTotalRetryTime : Nat
  exponentialBackoff : Bool
  deriving DecidableEq, Repr

/-- Modelled from the spec: the outcome of `deliver` (§4.3). -/
inductive DeliveryOutcome where
  | Success
  | Retryable
  | Permanent
  deriving DecidableEq, Repr

/-- Modelled from the spec: the in-flight retry record of one event (§3
DeliveryAttempt, §9 per-subscription state machine). `nextRetryAt` is the time
of the next retry measured from the first failed delivery, that is the
cumulative delay of the retries scheduled so far. -/
structure DeliveryAttempt where
  attemptNumber : Nat
  nextRetryAt : Nat
  deriving DecidableEq, Repr

/-- Modelled from the spec: the delay before retry number `attempt` (§4.3):
`initialInterval * (2^attempt)` with exponential backoff, else `initialInterval`. -/
def retryDelay (p : RetryPolicy) (attempt : Nat) : Nat :=
  if p.exponentialBackoff then p.initialInterval * 2 ^ attempt else p.initialInterval

/-- Modelled from the spec: what the Dispatcher does on a `Retryable` delivery
(§4.3): the retry is scheduled when the cumulative delay including it does not
exceed `maxTotalRetryTime`; otherwise nothing is scheduled. -/
def scheduleRetry (p : RetryPolicy) (a : DeliveryAttempt) : Option DeliveryAttempt :=
  if a.nextRetryAt + retryDelay p a.attemptNumber ≤ p.maxTotalRetryTime then
    some { attemptNumber := a.attemptNumber + 1
           nextRetryAt := a.nextRetryAt + retryDelay p a.attemptNumber }
  else none

/-- Modelled from the spec: the outcome reported for a delivery that failed
retryably (§4.3): still `Retryable` while a retry is scheduled, `Permanent`
once the total retry time is exceeded. -/
def retryOutcome (p : RetryPolicy) (a : DeliveryAttempt) : DeliveryOutcome :=
  match scheduleRetry p a with
  | some _ => DeliveryOutcome.Retryable
  | none => DeliveryOutcome.Permanent

/-- The record of an event before any retry. -/
def firstAttempt : DeliveryAttempt := { attemptNumber := 0, nextRetryAt := 0 }

/-- Modelled from the spec: the retry loop of one event whose every delivery
fails retryably, advanced at most `fuel` times (§9: advanced by a scheduler
tick). Returns the last outcome and the record reached. -/
def retryLoop (p : RetryPolicy) : Nat → DeliveryAttempt → DeliveryOutcome × DeliveryAttempt
  | 0, a => (DeliveryOutcome.Retryable, a)
  | fuel + 1, a =>
    match scheduleRetry p a with
    | none => (DeliveryOutcome.Permanent, a)
    | some a' => retryLoop p fuel a'

/-- Sum of the delays of retries `0 .. n-1`. -/
def cumulativeDelay (p : RetryPolicy) : Nat → Nat
  | 0 => 0
  | n + 1 => cumulativeDelay p n + retryDelay p n

/-- The record after `n` scheduled retries. -/
def attemptAfter (p : RetryPolicy) (n : Nat) : DeliveryAttempt :=
  { attemptNumber := n, nextRetryAt := cumulativeDelay p n }

/-- The retry policy carried by a dispatcher settings blob: the three retry
fields under the `dispatcher` key. -/
def dispatcherRetryPolicy (doc : String) : Option RetryPolicy :=
  match yamlLookup doc ["dispatcher", "retryInitialIntervalMillis"],
        yamlLookup doc ["dispatcher", "retryTimeMillis"],
        yamlLookup doc ["dispatcher", "retryExponentialBackoff"] with
  | some i, some t, some b =>
    match parseNat i, parseNat t with
    | some i, some t =>
      if b = "true" then some { initialInterval := i, maxTotalRetryTime := t, exponentialBackoff := true }
      else if b = "false" then some { initialInterval := i, maxTotalRetryTime := t, exponentialBackoff := false }
      else none
    | _, _ => none
  | _, _, _ => none

/-! ## BrokerConfig and ConfigWatcher (spec §3, §4.1) -/

/-- Modelled from the spec: the acknowledgement levels of BrokerConfig (§3). -/
inductive RequiredAcks where
  | NoResponse
  | WaitForLocal
  | WaitForAll
  deriving DecidableEq, Repr

/-- Modelled from the spec: the TLS block of BrokerConfig (§3). -/
structure TLSConfig where
  enabled : Bool
  certs : String
  deriving DecidableEq, Repr

/-- Modelled from the spec: the SASL block of BrokerConfig (§3). -/
structure SASLConfig where
  mechanism : String
  user : String
  password : String
  deriving DecidableEq, Repr

/-- Modelled from the spec: BrokerConfig (§3), the validated and versioned
snapshot of connection parameters. Durations are in nanoseconds. The type is
not among the source files. -/
structure BrokerConfig where
  brokerAddresses : List String
  tls : Option TLSConfig
  sasl : Option SASLConfig
  clientID : String
  adminTimeout : Nat
  netKeepAlive : Nat
  metadataRefreshInterval : Nat
  consumerOffsetsAutoCommitInterval : Nat
  consumerOffsetsRetention : Nat
  producerIdempotent : Bool
  producerRequiredAcks : RequiredAcks
  version : Nat
  deriving DecidableEq, Repr

/-- Modelled from the spec: a raw settings candidate (§4.1, §6) after the
key/value tree has been read: the fields of BrokerConfig without a version,
durations still as the decimal nanosecond strings of the wire boundary. -/
structure RawSettings where
  brokerAddresses : List String
  tls : Option TLSConfig
  sasl : Option SASLConfig
  clientID : String
  adminTimeout : String
  netKeepAlive : String
  metadataRefreshFrequency : String
  consumerOffsetsAutoCommitInterval : String
  consumerOffsetsRetention : String
  producerIdempotent : Bool
  producerRequiredAcks : RequiredAcks
  deriving DecidableEq, Repr

/-- Modelled from the spec: ConfigError (§4.1, §7), naming the offending field. -/
structure ConfigError where
  field : String
  deriving DecidableEq, Repr

/-- Modelled from the spec: the idempotence invariant of BrokerConfig (§3):
an idempotent producer requires `WaitForAll`. -/
def idempotenceOk (idempotent : Bool) (acks : RequiredAcks) : Bool :=
  !idempotent || acks == RequiredAcks.WaitForAll

/-- Modelled from the spec: the SASL invariant of BrokerConfig (§3): SASL
enabled requires non-empty user and password. -/
def saslOk (enabled : Bool) (user password : String) : Bool :=
  !enabled || (user != "" && password != "")

/-- Modelled from the spec: a duration field of the candidate; a malformed
duration is a ConfigError naming the field (§4.1). -/
def parseDuration (field : String) (s : String) : Except ConfigError Nat :=
  match parseNat s with
  | some n => Except.ok n
  | none => Except.error { field := field }

/-- Modelled from the spec: the duration fields of a candidate, in the order
of BrokerConfig; the accepted candidate becomes a BrokerConfig with the given
version (§4.1). -/
def validateDurations (raw : RawSettings) (version : Nat) : Except ConfigError BrokerConfig := do
  let adminTimeout ← parseDuration "Admin.Timeout" raw.adminTimeout
  let netKeepAlive ← parseDuration "Net.KeepAlive" raw.netKeepAlive
  let refresh ← parseDuration "Metadata.RefreshFrequency" raw.metadataRefreshFrequency
  let interval ← parseDuration "Consumer.Offsets.AutoCommit.Interval" raw.consumerOffsetsAutoCommitInterval
  let retention ← parseDuration "Consumer.Offsets.Retention" raw.consumerOffsetsRetention
  pure {
    brokerAddresses := raw.brokerAddresses
    tls := raw.tls
    sasl := raw.sasl
    clientID := raw.clientID
    adminTimeout := adminTimeout
    netKeepAlive := netKeepAlive
    metadataRefreshInterval := refresh
    consumerOffsetsAutoCommitInterval := interval
    consumerOffsetsRetention := retention
    producerIdempotent := raw.producerIdempotent
    producerRequiredAcks := raw.producerRequiredAcks
    version := version }

/-- Modelled from the spec: the TLS check of a candidate (§4.1): enabled TLS
without TLS material is rejected; then the durations are read. -/
def validateTLS (raw : RawSettings) (version : Nat) : Except ConfigError BrokerConfig :=
  match raw.tls with
  | some t =>
    if t.enabled = true ∧ t.certs = "" then Except.error { field := "Net.TLS" }
    else validateDurations raw version
  | none => validateDurations raw version

/-- Modelled from the spec: validation of a candidate (§4.1): inconsistent
idempotence/ack combination, SASL without user or password (§3), missing TLS
material, malformed duration. The idempotence check comes first: §8 states
that a candidate with `producerIdempotent = true` and `WaitForLocal` is
rejected naming `Producer.RequiredAcks`, with no condition on its other
fields. -/
def validate (raw : RawSettings) (version : Nat) : Except ConfigError BrokerConfig :=
  if idempotenceOk raw.producerIdempotent raw.producerRequiredAcks = false then
    Except.error { field := "Producer.RequiredAcks" }
  else
    match raw.sasl with
    | some s =>
      if saslOk true s.user s.password = false then
        Except.error { field := if s.user = "" then "Net.SASL.User" else "Net.SASL.Password" }
      else validateTLS raw version
    | none => validateTLS raw version

/-- Modelled from the spec: the state of the ConfigWatcher (§4.1): the active
BrokerConfig and the notification slot, in which the latest published value
supersedes an unconsumed older one. -/
structure ConfigWatcher where
  active : BrokerConfig
  latest : Option BrokerConfig
  deriving DecidableEq, Repr

/-- Modelled from the spec: `onConfigChange(rawSettings)` (§4.1). A valid
candidate gets the next version, becomes active and is published; an invalid
one is reported and the watcher is left as it was. -/
def onConfigChange (w : ConfigWatcher) (raw : RawSettings) :
    Except ConfigError BrokerConfig × ConfigWatcher :=
  match validate raw (w.active.version + 1) with
  | Except.ok c => (Except.ok c, { active := c, latest := some c })
  | Except.error e => (Except.error e, w)

/-- The watcher after a sequence of config updates, oldest first. -/
def applyUpdates (w : ConfigWatcher) : List RawSettings → ConfigWatcher
  | [] => w
  | raw :: rest => applyUpdates (onConfigChange w raw).2 rest

/-! ## ConsumerGroupManager (spec §3, §4.2) -/

/-- Modelled from the spec: the status of a ConsumerGroupHandle (§3). -/
inductive Status where
  | Starting
  | Running
  | Stopping
  | Stopped
  | Failed
  deriving DecidableEq, Repr

/-- Modelled from the spec: the group of a subscription, derived
deterministically from the subscription id (§3); the derivation itself is not
given, the id is taken as it is. -/
def groupIDOf (subscriptionID : String) : String := subscriptionID

/-- Modelled from the spec: ConsumerGroupHandle (§3). The underlying client
session is represented by the version of the BrokerConfig it is bound to. -/
structure ConsumerGroupHandle where
  subscriptionID : String
  groupID : String
  status : Status
  configVersion : Nat
  deriving DecidableEq, Repr

/-- Modelled from the spec: the ConsumerGroupManager (§4.2), owner of the set
of handles. The manager is not among the source files. -/
structure ConsumerGroupManager where
  handles : List ConsumerGroupHandle
  deriving DecidableEq, Repr

/-- The manager before any subscription has appeared. -/
def ConsumerGroupManager.empty : ConsumerGroupManager := { handles := [] }

/-- Modelled from the spec: first half of stopping a handle (§4.2 state
machine): a handle that is not already stopped enters `Stopping`. -/
def beginStop (h : ConsumerGroupHandle) : ConsumerGroupHandle :=
  if h.status = Status.Stopped then h else { h with status := Status.Stopping }

/-- Modelled from the spec: second half of stopping a handle (§4.2): the
connection is released or torn down and `Stopping` becomes `Stopped`. -/
def finishStop (h : ConsumerGroupHandle) : ConsumerGroupHandle :=
  if h.status = Status.Stopping then { h with status := Status.Stopped } else h

/-- The handles of a manager after the handles of one subscription are stopped. -/
def stopHandles (id : String) (m : ConsumerGroupManager) : ConsumerGroupManager :=
  { handles := m.handles.map (fun h =>
      if h.subscriptionID = id then finishStop (beginStop h) else h) }

/-- Modelled from the spec: `stop(subscriptionID)` (§4.2): stops the handle of
the subscription; an already stopped or unknown handle is left as it is, and
that is not an error. -/
def stop (id : String) (m : ConsumerGroupManager) : Except String ConsumerGroupManager :=
  Except.ok (stopHandles id m)

/-- Modelled from the spec: starting the group of a subscription (§4.2):
`Stopped -> Starting -> Running`, or `Failed` on an unrecoverable connection
error, which `connect` decides. The new handle replaces any earlier handle of
the subscription wholesale (§3, §9). -/
def start (connect : String → Bool) (config : BrokerConfig) (id : String)
    (m : ConsumerGroupManager) : ConsumerGroupManager :=
  { handles :=
      { subscriptionID := id
        groupID := groupIDOf id
        status := if connect id then Status.Running else Status.Failed
        configVersion := config.version } ::
      m.handles.filter (fun h => h.subscriptionID ≠ id) }

/-- Modelled from the spec: reconciliation of one desired subscription (§4.2):
an addition (no handle, or a stopped one) is started; a handle whose
BrokerConfig version is stale is stopped and then started; any other handle is
left alone. -/
def reconcileOne (connect : String → Bool) (config : BrokerConfig)
    (m : ConsumerGroupManager) (id : String) : ConsumerGroupManager :=
  match m.handles.find? (fun h => h.subscriptionID = id) with
  | none => start connect config id m
  | some h =>
    if h.status = Status.Stopped then start connect config id m
    else if h.configVersion ≠ config.version then start connect config id (stopHandles id m)
    else m

/-- Modelled from the spec: removals of a reconciliation pass (§4.2): every
handle whose subscription is no longer desired is stopped. -/
def stopRemoved (desired : List String) (m : ConsumerGroupManager) : ConsumerGroupManager :=
  (m.handles.map (fun h => h.subscriptionID)).foldl
    (fun acc id => if id ∈ desired then acc else stopHandles id acc) m

/-- Modelled from the spec: `reconcile(desiredSubscriptions, config)` (§4.2):
stops the groups of removed subscriptions, then handles the desired
subscriptions one at a time. -/
def reconcile (connect : String → Bool) (desired : List String) (config : BrokerConfig)
    (m : ConsumerGroupManager) : ConsumerGroupManager :=
  desired.foldl (reconcileOne connect config) (stopRemoved desired m)

/-- States of the manager reachable from the empty manager through `reconcile` and `stop`. -/
inductive Reachable : ConsumerGroupManager → Prop where
  | init : Reachable ConsumerGroupManager.empty
  | byReconcile (connect : String → Bool) (desired : List String) (config : BrokerConfig)
      (m : ConsumerGroupManager) : Reachable m → Reachable (reconcile connect desired config m)
  | byStop (id : String) (m m' : ConsumerGroupManager) :
      Reachable m → stop id m = Except.ok m' → Reachable m'

/-- Number of handles of a subscription that are `Running`. -/
def runningCount (m : ConsumerGroupManager) (id : String) : Nat :=
  (m.handles.filter (fun h => h.subscriptionID = id ∧ h.status = Status.Running)).length

/-! ## Reading producer and SASL settings from a Sarama blob -/

/-- A YAML boolean as written in the settings blobs. -/
def parseBool (s : String) : Option Bool :=
  if s = "true" then some true else if s = "false" then some false else none

/-- The acknowledgement level of a `Producer.RequiredAcks` value in the
encoding of the Sarama client library: 0 is NoResponse, 1 is WaitForLocal and
-1 is WaitForAll. -/
def parseRequiredAcks (s : String) : Option RequiredAcks :=
  if s = "0" then some RequiredAcks.NoResponse
  else if s = "1" then some RequiredAcks.WaitForLocal
  else if s = "-1" then some RequiredAcks.WaitForAll
  else none

/-- The producer settings a Sarama blob carries: `Producer.Idempotent` and
`Producer.RequiredAcks`. -/
def producerSettings (doc : String) : Option (Bool × RequiredAcks) :=
  match yamlLookup doc ["Producer", "Idempotent"], yamlLookup doc ["Producer", "RequiredAcks"] with
  | some i, some a =>
    match parseBool i, parseRequiredAcks a with
    | some i, some a => some (i, a)
    | _, _ => none
  | _, _ => none

/-- The SASL settings a Sarama blob carries: `Net.SASL.Enable`, `Net.SASL.User`
and `Net.SASL.Password`. -/
def saslSettings (doc : String) : Option (Bool × String × String) :=
  match yamlLookup doc ["Net", "SASL", "Enable"], yamlLookup doc ["Net", "SASL", "User"],
        yamlLookup doc ["Net", "SASL", "Password"] with
  | some e, some u, some pw =>
    match parseBool e with
    | some e => some (e, u, pw)
    | none => none
  | _, _, _ => none

/-- Nanoseconds in a second. -/
def nanosPerSecond : Nat := 10 ^ 9

end EventingKafka

namespace Monitoring

/-! ## group_service.pb.go: messages and getters

Source embedded here:
`vendor/google.golang.org/genproto/googleapis/monitoring/v3/group_service.pb.go`.
A Go pointer is an `Option` (nil is `none`), a Go slice is an `Option` of a list
(the nil slice is `none`), `int32` fields are integers that are only stored and
returned, and a call that panics returns `Except.error` with the panic text.
The types `Group`, `TimeInterval`, `monitoredres.MonitoredResource` and
`empty.Empty` are declared in other files and are type parameters here. -/

/-- A Go pointer: nil or the value pointed to. -/
abbrev Ptr (α : Type) : Type := Option α

/-- A Go slice as far as the getters see it: nil or its elements. -/
abbrev Slice (α : Type) : Type := Option (List α)

/-- The text of the run-time panic of a nil pointer dereference. -/
def nilDereference : String := "invalid memory address or nil pointer dereference"

/-- The text of the run-time panic of a failed type assertion. -/
def interfaceConversion : String := "interface conversion"

structure ListGroupsRequest_ChildrenOfGroup where
  ChildrenOfGroup : String
  deriving DecidableEq, Repr

structure ListGroupsRequest_AncestorsOfGroup where
  AncestorsOfGroup : String
  deriving DecidableEq, Repr

structure ListGroupsRequest_DescendantsOfGroup where
  DescendantsOfGroup : String
  deriving DecidableEq, Repr

/-- A value of the interface `isListGroupsRequest_Filter`: the nil interface, or
a pointer (possibly a nil pointer) to one of the three wrapper structs, the only
types with the unexported method `isListGroupsRequest_Filter`. -/
inductive isListGroupsRequest_Filter where
  | nil
  | ChildrenOfGroup (x : Ptr ListGroupsRequest_ChildrenOfGroup)
  | AncestorsOfGroup (x : Ptr ListGroupsRequest_AncestorsOfGroup)
  | DescendantsOfGroup (x : Ptr ListGroupsRequest_DescendantsOfGroup)
  deriving DecidableEq, Repr

structure ListGroupsRequest where
  Name : String
  Filter : isListGroupsRequest_Filter
  PageSize : Int
  PageToken : String
  XXX_NoUnkeyedLiteral : Unit
  XXX_unrecognized : Slice Nat
  XXX_sizecache : Int
  deriving DecidableEq, Repr

structure ListGroupsResponse (Group : Type) where
  Group : Slice (Ptr Group)
  NextPageToken : String
  XXX_NoUnkeyedLiteral : Unit
  XXX_unrecognized : Slice Nat
  XXX_sizecache : Int

structure GetGroupRequest where
  Name : String
  XXX_NoUnkeyedLiteral : Unit
  XXX_unrecognized : Slice Nat
  XXX_sizecache : Int
  deriving DecidableEq, Repr

structure CreateGroupRequest (Group : Type) where
  Name : String
  Group : Ptr Group
  ValidateOnly : Bool
  XXX_NoUnkeyedLiteral : Unit
  XXX_unrecognized : Slice Nat
  XXX_sizecache : Int

structure UpdateGroupRequest (Group : Type) where
  Group : Ptr Group
  ValidateOnly : Bool
  XXX_NoUnkeyedLiteral : Unit
  XXX_unrecognized : Slice Nat
  XXX_sizecache : Int

structure DeleteGroupRequest where
  Name : String
  Recursive : Bool
  XXX_NoUnkeyedLiteral : Unit
  XXX_unrecognized : Slice Nat
  XXX_sizecache : Int
  deriving DecidableEq, Repr

structure ListGroupMembersRequest (TimeInterval : Type) where
  Name : String
  PageSize : Int
  PageToken : String
  Filter : String
  Interval : Ptr TimeInterval
  XXX_NoUnkeyedLiteral : Unit
  XXX_unrecognized : Slice Nat
  XXX_sizecache : Int

structure ListGroupMembersResponse (MonitoredResource : Type) where
  Members : Slice (Ptr MonitoredResource)
  NextPageToken : String
  TotalSize : Int
  XXX_NoUnkeyedLiteral : Unit
  XXX_unrecognized : Slice Nat
  XXX_sizecache : Int

def ListGroupsRequest.GetName (m : Ptr ListGroupsRequest) : String :=
  match m with
  | some m => m.Name
  | none => ""

def ListGroupsRequest.GetFilter (m : Ptr ListGroupsRequest) : isListGroupsRequest_Filter :=
  match m with
  | some m => m.Filter
  | none => isListGroupsRequest_Filter.nil

/-- The type assertion succeeds for a `*ListGroupsRequest_ChildrenOfGroup`,
also for a nil one, and the field read then dereferences the pointer. -/
def ListGroupsRequest.GetChildrenOfGroup (m : Ptr ListGroupsRequest) : Except String String :=
  match ListGroupsRequest.GetFilter m with
  | isListGroupsRequest_Filter.ChildrenOfGroup x =>
    match x with
    | some x => Except.ok x.ChildrenOfGroup
    | none => Except.error nilDereference
  | _ => Except.ok ""

def ListGroupsRequest.GetAncestorsOfGroup (m : Ptr ListGroupsRequest) : Except String String :=
  match ListGroupsRequest.GetFilter m with
  | isListGroupsRequest_Filter.AncestorsOfGroup x =>
    match x with
    | some x => Except.ok x.AncestorsOfGroup
    | none => Except.error nilDereference
  | _ => Except.ok ""

def ListGroupsRequest.GetDescendantsOfGroup (m : Ptr ListGroupsRequest) : Except String String :=
  match ListGroupsRequest.GetFilter m with
  | isListGroupsRequest_Filter.DescendantsOfGroup x =>
    match x with
    | some x => Except.ok x.DescendantsOfGroup
    | none => Except.error nilDereference
  | _ => Except.ok ""

def ListGroupsRequest.GetPageSize (m : Ptr ListGroupsRequest) : Int :=
  match m with
  | some m => m.PageSize
  | none => 0

def ListGroupsRequest.GetPageToken (m : Ptr ListGroupsRequest) : String :=
  match m with
  | some m => m.PageToken
  | none => ""

/-- The types listed by `XXX_OneofWrappers`: a nil pointer of each wrapper type. -/
def ListGroupsRequest.XXX_OneofWrappers : List isListGroupsRequest_Filter :=
  [isListGroupsRequest_Filter.ChildrenOfGroup none,
   isListGroupsRequest_Filter.AncestorsOfGroup none,
   isListGroupsRequest_Filter.DescendantsOfGroup none]

def ListGroupsResponse.GetGroup {Group : Type} (m : Ptr (ListGroupsResponse Group)) :
    Slice (Ptr Group) :=
  match m with
  | some m => m.Group
  | none => none

def ListGroupsResponse.GetNextPageToken {Group : Type} (m : Ptr (ListGroupsResponse Group)) :
    String :=
  match m with
  | some m => m.NextPageToken
  | none => ""

def GetGroupRequest.GetName (m : Ptr GetGroupRequest) : String :=
  match m with
  | some m => m.Name
  | none => ""

def CreateGroupRequest.GetName {Group : Type} (m : Ptr (CreateGroupRequest Group)) : String :=
  match m with
  | some m => m.Name
  | none => ""

def CreateGroupRequest.GetGroup {Group : Type} (m : Ptr (CreateGroupRequest Group)) : Ptr Group :=
  match m with
  | some m => m.Group
  | none => none

def CreateGroupRequest.GetValidateOnly {Group : Type} (m : Ptr (CreateGroupRequest Group)) : Bool :=
  match m with
  | some m => m.ValidateOnly
  | none => false

def UpdateGroupRequest.GetGroup {Group : Type} (m : Ptr (UpdateGroupRequest Group)) : Ptr Group :=
  match m with
  | some m => m.Group
  | none => none

def UpdateGroupRequest.GetValidateOnly {Group : Type} (m : Ptr (UpdateGroupRequest Group)) : Bool :=
  match m with
  | some m => m.ValidateOnly
  | none => false

def DeleteGroupRequest.GetName (m : Ptr DeleteGroupRequest) : String :=
  match m with
  | some m => m.Name
  | none => ""

def DeleteGroupRequest.GetRecursive (m : Ptr DeleteGroupRequest) : Bool :=
  match m with
  | some m => m.Recursive
  | none => false

def ListGroupMembersRequest.GetName {TimeInterval : Type}
    (m : Ptr (ListGroupMembersRequest TimeInterval)) : String :=
  match m with
  | some m => m.Name
  | none => ""

def ListGroupMembersRequest.GetPageSize {TimeInterval : Type}
    (m : Ptr (ListGroupMembersRequest TimeInterval)) : Int :=
  match m with
  | some m => m.PageSize
  | none => 0

def ListGroupMembersRequest.GetPageToken {TimeInterval : Type}
    (m : Ptr (ListGroupMembersRequest TimeInterval)) : String :=
  match m with
  | some m => m.PageToken
  | none => ""

def ListGroupMembersRequest.GetFilter {TimeInterval : Type}
    (m : Ptr (ListGroupMembersRequest TimeInterval)) : String :=
  match m with
  | some m => m.Filter
  | none => ""

def ListGroupMembersRequest.GetInterval {TimeInterval : Type}
    (m : Ptr (ListGroupMembersRequest TimeInterval)) : Ptr TimeInterval :=
  match m with
  | some m => m.Interval
  | none => none

def ListGroupMembersResponse.GetMembers {MonitoredResource : Type}
    (m : Ptr (ListGroupMembersResponse MonitoredResource)) : Slice (Ptr MonitoredResource) :=
  match m with
  | some m => m.Members
  | none => none

def ListGroupMembersResponse.GetNextPageToken {MonitoredResource : Type}
    (m : Ptr (ListGroupMembersResponse MonitoredResource)) : String :=
  match m with
  | some m => m.NextPageToken
  | none => ""

def ListGroupMembersResponse.GetTotalSize {MonitoredResource : Type}
    (m : Ptr (ListGroupMembersResponse MonitoredResource)) : Int :=
  match m with
  | some m => m.TotalSize
  | none => 0

/-! ## group_service.pb.go: client, server and service descriptor

The gRPC library is outside the repository. What the generated code uses of
it is modelled here: the status codes, `status.Errorf`, the connection
interface of the client, and the interceptor and descriptor types of the
server. -/

/-- The gRPC status codes (`codes.Code`), in the order of their numbers 0..16. -/
inductive codes.Code where
  | OK
  | Canceled
  | Unknown
  | InvalidArgument
  | DeadlineExceeded
  | NotFound
  | AlreadyExists
  | PermissionDenied
  | ResourceExhausted
  | FailedPrecondition
  | Aborted
  | OutOfRange
  | Unimplemented
  | Internal
  | Unavailable
  | DataLoss
  | Unauthenticated
  deriving DecidableEq, Repr

/-- A non-nil Go `error`: an error made from a gRPC status, or any other error.
The nil error is `none` of `Option GoError`. -/
inductive GoError where
  | status (code : codes.Code) (message : String)
  | other (text : String)
  deriving DecidableEq, Repr

/-- The library function `status.Errorf` for a format without verbs and without
operands: the message is the format; the error is nil for the code OK and a
status error with the code and the message otherwise. -/
def status.Errorf (c : codes.Code) (format : String) : Option GoError :=
  if c = codes.Code.OK then none else some (GoError.status c format)

/-- The library function `status.Code`: OK for the nil error, the code of a
status error, Unknown for any other error. -/
def status.Code (err : Option GoError) : codes.Code :=
  match err with
  | none => codes.Code.OK
  | some (GoError.status c _) => c
  | some (GoError.other _) => codes.Code.Unknown

/-- The message of a status error. -/
def status.Message (err : Option GoError) : Option String :=
  match err with
  | some (GoError.status _ m) => some m
  | _ => none

/-- The interface `grpc.ClientConnInterface` as the client uses it. `Invoke`
gets the context, the method path, the request pointer, the value of the reply
object and the call options; it returns its error and the value it has left in
the reply object. -/
structure ClientConnInterface (Ctx CallOption : Type) : Type 1 where
  Invoke : (Req Resp : Type) → Ctx → String → Ptr Req → Resp → List CallOption →
    Option GoError × Resp

structure groupServiceClient (Ctx CallOption : Type) : Type 1 where
  cc : ClientConnInterface Ctx CallOption

def NewGroupServiceClient {Ctx CallOption : Type} (cc : ClientConnInterface Ctx CallOption) :
    groupServiceClient Ctx CallOption :=
  { cc := cc }

/-- The zero value `ListGroupsResponse{}` that `new` allocates. -/
def ListGroupsResponse.zero (Group : Type) : ListGroupsResponse Group :=
  { Group := none, NextPageToken := "", XXX_NoUnkeyedLiteral := (),
    XXX_unrecognized := none, XXX_sizecache := 0 }

/-- The zero value `ListGroupMembersResponse{}` that `new` allocates. -/
def ListGroupMembersResponse.zero (MonitoredResource : Type) :
    ListGroupMembersResponse MonitoredResource :=
  { Members := none, NextPageToken := "", TotalSize := 0, XXX_NoUnkeyedLiteral := (),
    XXX_unrecognized := none, XXX_sizecache := 0 }

/-- Common tail of the client methods: nil and the error when `Invoke` failed,
else the reply object and a nil error. -/
def clientReturn {Resp : Type} (r : Option GoError × Resp) : Ptr Resp × Option GoError :=
  match r.1 with
  | some err => (none, some err)
  | none => (some r.2, none)

section Client

variable {Ctx CallOption Group TimeInterval MonitoredResource Empty : Type}

def groupServiceClient.ListGroups (c : groupServiceClient Ctx CallOption) (ctx : Ctx)
    (in_ : Ptr ListGroupsRequest) (opts : List CallOption) :
    Ptr (ListGroupsResponse Group) × Option GoError :=
  clientReturn (c.cc.Invoke ListGroupsRequest (ListGroupsResponse Group) ctx
    "/google.monitoring.v3.GroupService/ListGroups" in_ (ListGroupsResponse.zero Group) opts)

def groupServiceClient.GetGroup [Inhabited Group] (c : groupServiceClient Ctx CallOption)
    (ctx : Ctx) (in_ : Ptr GetGroupRequest) (opts : List CallOption) :
    Ptr Group × Option GoError :=
  clientReturn (c.cc.Invoke GetGroupRequest Group ctx
    "/google.monitoring.v3.GroupService/GetGroup" in_ default opts)

def groupServiceClient.CreateGroup [Inhabited Group] (c : groupServiceClient Ctx CallOption)
    (ctx : Ctx) (in_ : Ptr (CreateGroupRequest Group)) (opts : List CallOption) :
    Ptr Group × Option GoError :=
  clientReturn (c.cc.Invoke (CreateGroupRequest Group) Group ctx
    "/google.monitoring.v3.GroupService/CreateGroup" in_ default opts)

def groupServiceClient.UpdateGroup [Inhabited Group] (c : groupServiceClient Ctx CallOption)
    (ctx : Ctx) (in_ : Ptr (UpdateGroupRequest Group)) (opts : List CallOption) :
    Ptr Group × Option GoError :=
  clientReturn (c.cc.Invoke (UpdateGroupRequest Group) Group ctx
    "/google.monitoring.v3.GroupService/UpdateGroup" in_ default opts)

def groupServiceClient.DeleteGroup [Inhabited Empty] (c : groupServiceClient Ctx CallOption)
    (ctx : Ctx) (in_ : Ptr DeleteGroupRequest) (opts : List CallOption) :
    Ptr Empty × Option GoError :=
  clientReturn (c.cc.Invoke DeleteGroupRequest Empty ctx
    "/google.monitoring.v3.GroupService/DeleteGroup" in_ default opts)

def groupServiceClient.ListGroupMembers (c : groupServiceClient Ctx CallOption) (ctx : Ctx)
    (in_ : Ptr (ListGroupMembersRequest TimeInterval)) (opts : List CallOption) :
    Ptr (ListGroupMembersResponse MonitoredResource) × Option GoError :=
  clientReturn (c.cc.Invoke (ListGroupMembersRequest TimeInterval)
    (ListGroupMembersResponse MonitoredResource) ctx
    "/google.monitoring.v3.GroupService/ListGroupMembers" in_
    (ListGroupMembersResponse.zero MonitoredResource) opts)

end Client

/-- The interface `GroupServiceServer`: the six methods of an implementation. -/
structure GroupServiceServer (Ctx Group TimeInterval MonitoredResource Empty : Type) where
  ListGroups : Ctx → Ptr ListGroupsRequest → Ptr (ListGroupsResponse Group) × Option GoError
  GetGroup : Ctx → Ptr GetGroupRequest → Ptr Group × Option GoError
  CreateGroup : Ctx → Ptr (CreateGroupRequest Group) → Ptr Group × Option GoError
  UpdateGroup : Ctx → Ptr (UpdateGroupRequest Group) → Ptr Group × Option GoError
  DeleteGroup : Ctx → Ptr DeleteGroupRequest → Ptr Empty × Option GoError
  ListGroupMembers : Ctx → Ptr (ListGroupMembersRequest TimeInterval) →
    Ptr (ListGroupMembersResponse MonitoredResource) × Option GoError

structure UnimplementedGroupServiceServer where
  deriving DecidableEq, Repr

section Unimplemented

variable {Ctx Group TimeInterval MonitoredResource Empty : Type}

def UnimplementedGroupServiceServer.ListGroups (_ : Ptr UnimplementedGroupServiceServer)
    (_ : Ctx) (_ : Ptr ListGroupsRequest) : Ptr (ListGroupsResponse Group) × Option GoError :=
  (none, status.Errorf codes.Code.Unimplemented "method ListGroups not implemented")

def UnimplementedGroupServiceServer.GetGroup (_ : Ptr UnimplementedGroupServiceServer)
    (_ : Ctx) (_ : Ptr GetGroupRequest) : Ptr Group × Option GoError :=
  (none, status.Errorf codes.Code.Unimplemented "method GetGroup not implemented")

def UnimplementedGroupServiceServer.CreateGroup (_ : Ptr UnimplementedGroupServiceServer)
    (_ : Ctx) (_ : Ptr (CreateGroupRequest Group)) : Ptr Group × Option GoError :=
  (none, status.Errorf codes.Code.Unimplemented "method CreateGroup not implemented")

def UnimplementedGroupServiceServer.UpdateGroup (_ : Ptr UnimplementedGroupServiceServer)
    (_ : Ctx) (_ : Ptr (UpdateGroupRequest Group)) : Ptr Group × Option GoError :=
  (none, status.Errorf codes.Code.Unimplemented "method UpdateGroup not implemented")

def UnimplementedGroupServiceServer.DeleteGroup (_ : Ptr UnimplementedGroupServiceServer)
    (_ : Ctx) (_ : Ptr DeleteGroupRequest) : Ptr Empty × Option GoError :=
  (none, status.Errorf codes.Code.Unimplemented "method DeleteGroup not implemented")

def UnimplementedGroupServiceServer.ListGroupMembers (_ : Ptr UnimplementedGroupServiceServer)
    (_ : Ctx) (_ : Ptr (ListGroupMembersRequest TimeInterval)) :
    Ptr (ListGroupMembersResponse MonitoredResource) × Option GoError :=
  (none, status.Errorf codes.Code.Unimplemented "method ListGroupMembers not implemented")

end Unimplemented

/-- The value of a `*UnimplementedGroupServiceServer` as a `GroupServiceServer`. -/
def UnimplementedGroupServiceServer.asServer (Ctx Group TimeInterval MonitoredResource Empty : Type)
    (s : Ptr UnimplementedGroupServiceServer) :
    GroupServiceServer Ctx Group TimeInterval MonitoredResource Empty :=
  { ListGroups := UnimplementedGroupServiceServer.ListGroups s
    GetGroup := UnimplementedGroupServiceServer.GetGroup s
    CreateGroup := UnimplementedGroupServiceServer.CreateGroup s
    UpdateGroup := UnimplementedGroupServiceServer.UpdateGroup s
    DeleteGroup := UnimplementedGroupServiceServer.DeleteGroup s
    ListGroupMembers := UnimplementedGroupServiceServer.ListGroupMembers s }

/-- The zero value `ListGroupsRequest{}` that `new` allocates. -/
def ListGroupsRequest.zero : ListGroupsRequest :=
  { Name := "", Filter := isListGroupsRequest_Filter.nil, PageSize := 0, PageToken := "",
    XXX_NoUnkeyedLiteral := (), XXX_unrecognized := none, XXX_sizecache := 0 }

/-- The zero value `GetGroupRequest{}` that `new` allocates. -/
def GetGroupRequest.zero : GetGroupRequest :=
  { Name := "", XXX_NoUnkeyedLiteral := (), XXX_unrecognized := none, XXX_sizecache := 0 }

/-- The zero value `CreateGroupRequest{}` that `new` allocates. -/
def CreateGroupRequest.zero (Group : Type) : CreateGroupRequest Group :=
  { Name := "", Group := none, ValidateOnly := false, XXX_NoUnkeyedLiteral := (),
    XXX_unrecognized := none, XXX_sizecache := 0 }

/-- The zero value `UpdateGroupRequest{}` that `new` allocates. -/
def UpdateGroupRequest.zero (Group : Type) : UpdateGroupRequest Group :=
  { Group := none, ValidateOnly := false, XXX_NoUnkeyedLiteral := (),
    XXX_unrecognized := none, XXX_sizecache := 0 }

/-- The zero value `DeleteGroupRequest{}` that `new` allocates. -/
def DeleteGroupRequest.zero : DeleteGroupRequest :=
  { Name := "", Recursive := false, XXX_NoUnkeyedLiteral := (), XXX_unrecognized := none,
    XXX_sizecache := 0 }

/-- The zero value `ListGroupMembersRequest{}` that `new` allocates. -/
def ListGroupMembersRequest.zero (TimeInterval : Type) : ListGroupMembersRequest TimeInterval :=
  { Name := "", PageSize := 0, PageToken := "", Filter := "", Interval := none,
    XXX_NoUnkeyedLiteral := (), XXX_unrecognized := none, XXX_sizecache := 0 }

/-- A value of type `interface{}` as the handlers meet it: the nil interface, a
pointer (possibly nil) to one of the messages of the service, or a value of
some other type. -/
inductive Any (Group TimeInterval MonitoredResource Empty : Type) where
  | nil
  | ptrListGroupsRequest (p : Ptr ListGroupsRequest)
  | ptrListGroupsResponse (p : Ptr (ListGroupsResponse Group))
  | ptrGetGroupRequest (p : Ptr GetGroupRequest)
  | ptrCreateGroupRequest (p : Ptr (CreateGroupRequest Group))
  | ptrUpdateGroupRequest (p : Ptr (UpdateGroupRequest Group))
  | ptrDeleteGroupRequest (p : Ptr DeleteGroupRequest)
  | ptrListGroupMembersRequest (p : Ptr (ListGroupMembersRequest TimeInterval))
  | ptrListGroupMembersResponse (p : Ptr (ListGroupMembersResponse MonitoredResource))
  | ptrGroup (p : Ptr Group)
  | ptrEmpty (p : Ptr Empty)
  | other

/-- What a handler returns: its two results, or a panic. -/
abbrev HandlerResult (Group TimeInterval MonitoredResource Empty : Type) : Type :=
  Except String (Any Group TimeInterval MonitoredResource Empty × Option GoError)

/-- The struct `grpc.UnaryServerInfo`. `Server` is the `srv` value the handler
got: an implementation of `GroupServiceServer`, or `none` for a value that does
not implement it. -/
structure UnaryServerInfo (Ctx Group TimeInterval MonitoredResource Empty : Type) where
  Server : Option (GroupServiceServer Ctx Group TimeInterval MonitoredResource Empty)
  FullMethod : String

/-- The function type `grpc.UnaryHandler`. -/
abbrev UnaryHandler (Ctx Group TimeInterval MonitoredResource Empty : Type) : Type :=
  Ctx → Any Group TimeInterval MonitoredResource Empty →
    HandlerResult Group TimeInterval MonitoredResource Empty

/-- The function type `grpc.UnaryServerInterceptor`. -/
abbrev UnaryServerInterceptor (Ctx Group TimeInterval MonitoredResource Empty : Type) : Type :=
  Ctx → Any Group TimeInterval MonitoredResource Empty →
    UnaryServerInfo Ctx Group TimeInterval MonitoredResource Empty →
    UnaryHandler Ctx Group TimeInterval MonitoredResource Empty →
    HandlerResult Group TimeInterval MonitoredResource Empty

/-- The decoder `dec` a handler gets: for the value of the object it is given it
returns its error and the value it has left in the object. -/
abbrev Decoder : Type 1 := (T : Type) → T → Option GoError × T

/-- The type of the `Handler` field of `grpc.MethodDesc`. -/
abbrev methodHandler (Ctx Group TimeInterval MonitoredResource Empty : Type) : Type 1 :=
  Option (GroupServiceServer Ctx Group TimeInterval MonitoredResource Empty) → Ctx → Decoder →
    Option (UnaryServerInterceptor Ctx Group TimeInterval MonitoredResource Empty) →
    HandlerResult Group TimeInterval MonitoredResource Empty

/-- The struct `grpc.MethodDesc`. -/
structure MethodDesc (Ctx Group TimeInterval MonitoredResource Empty : Type) : Type 1 where
  MethodName : String
  Handler : methodHandler Ctx Group TimeInterval MonitoredResource Empty

/-- The struct `grpc.StreamDesc`, of which the descriptor has none. -/
structure StreamDesc where
  StreamName : String
  deriving DecidableEq, Repr

/-- The struct `grpc.ServiceDesc`. `HandlerType` names the interface type of
which the source gives a nil pointer. -/
structure ServiceDesc (Ctx Group TimeInterval MonitoredResource Empty : Type) : Type 1 where
  ServiceName : String
  HandlerType : String
  Methods : List (MethodDesc Ctx Group TimeInterval MonitoredResource Empty)
  Streams : List StreamDesc
  Metadata : String

section Handlers

variable {Ctx Group TimeInterval MonitoredResource Empty : Type}

def _GroupService_ListGroups_Handler :
    methodHandler Ctx Group TimeInterval MonitoredResource Empty :=
  fun srv ctx dec interceptor =>
    let r := dec ListGroupsRequest ListGroupsRequest.zero
    match r.1 with
    | some err => Except.ok (Any.nil, some err)
    | none =>
      match interceptor with
      | none =>
        match srv with
        | none => Except.error interfaceConversion
        | some s => Except.ok (Any.ptrListGroupsResponse (s.ListGroups ctx (some r.2)).1,
            (s.ListGroups ctx (some r.2)).2)
      | some ic =>
        ic ctx (Any.ptrListGroupsRequest (some r.2))
          { Server := srv, FullMethod := "/google.monitoring.v3.GroupService/ListGroups" }
          (fun ctx req =>
            match srv, req with
            | some s, Any.ptrListGroupsRequest p =>
              Except.ok (Any.ptrListGroupsResponse (s.ListGroups ctx p).1, (s.ListGroups ctx p).2)
            | _, _ => Except.error interfaceConversion)

def _GroupService_GetGroup_Handler :
    methodHandler Ctx Group TimeInterval MonitoredResource Empty :=
  fun srv ctx dec interceptor =>
    let r := dec GetGroupRequest GetGroupRequest.zero
    match r.1 with
    | some err => Except.ok (Any.nil, some err)
    | none =>
      match interceptor with
      | none =>
        match srv with
        | none => Except.error interfaceConversion
        | some s => Except.ok (Any.ptrGroup (s.GetGroup ctx (some r.2)).1,
            (s.GetGroup ctx (some r.2)).2)
      | some ic =>
        ic ctx (Any.ptrGetGroupRequest (some r.2))
          { Server := srv, FullMethod := "/google.monitoring.v3.GroupService/GetGroup" }
          (fun ctx req =>
            match srv, req with
            | some s, Any.ptrGetGroupRequest p =>
              Except.ok (Any.ptrGroup (s.GetGroup ctx p).1, (s.GetGroup ctx p).2)
            | _, _ => Except.error interfaceConversion)

def _GroupService_CreateGroup_Handler :
    methodHandler Ctx Group TimeInterval MonitoredResource Empty :=
  fun srv ctx dec interceptor =>
    let r := dec (CreateGroupRequest Group) (CreateGroupRequest.zero Group)
    match r.1 with
    | some err => Except.ok (Any.nil, some err)
    | none =>
      match interceptor with
      | none =>
        match srv with
        | none => Except.error interfaceConversion
        | some s => Except.ok (Any.ptrGroup (s.CreateGroup ctx (some r.2)).1,
            (s.CreateGroup ctx (some r.2)).2)
      | some ic =>
        ic ctx (Any.ptrCreateGroupRequest (some r.2))
          { Server := srv, FullMethod := "/google.monitoring.v3.GroupService/CreateGroup" }
          (fun ctx req =>
            match srv, req with
            | some s, Any.ptrCreateGroupRequest p =>
              Except.ok (Any.ptrGroup (s.CreateGroup ctx p).1, (s.CreateGroup ctx p).2)
            | _, _ => Except.error interfaceConversion)

def _GroupService_UpdateGroup_Handler :
    methodHandler Ctx Group TimeInterval MonitoredResource Empty :=
  fun srv ctx dec interceptor =>
    let r := dec (UpdateGroupRequest Group) (UpdateGroupRequest.zero Group)
    match r.1 with
    | some err => Except.ok (Any.nil, some err)
    | none =>
      match interceptor with
      | none =>
        match srv with
        | none => Except.error interfaceConversion
        | some s => Except.ok (Any.ptrGroup (s.UpdateGroup ctx (some r.2)).1,
            (s.UpdateGroup ctx (some r.2)).2)
      | some ic =>
        ic ctx (Any.ptrUpdateGroupRequest (some r.2))
          { Server := srv, FullMethod := "/google.monitoring.v3.GroupService/UpdateGroup" }
          (fun ctx req =>
            match srv, req with
            | some s, Any.ptrUpdateGroupRequest p =>
              Except.ok (Any.ptrGroup (s.UpdateGroup ctx p).1, (s.UpdateGroup ctx p).2)
            | _, _ => Except.error interfaceConversion)

def _GroupService_DeleteGroup_Handler :
    methodHandler Ctx Group TimeInterval MonitoredResource Empty :=
  fun srv ctx dec interceptor =>
    let r := dec DeleteGroupRequest DeleteGroupRequest.zero
    match r.1 with
    | some err => Except.ok (Any.nil, some err)
    | none =>
      match interceptor with
      | none =>
        match srv with
        | none => Except.error interfaceConversion
        | some s => Except.ok (Any.ptrEmpty (s.DeleteGroup ctx (some r.2)).1,
            (s.DeleteGroup ctx (some r.2)).2)
      | some ic =>
        ic ctx (Any.ptrDeleteGroupRequest (some r.2))
          { Server := srv, FullMethod := "/google.monitoring.v3.GroupService/DeleteGroup" }
          (fun ctx req =>
            match srv, req with
            | some s, Any.ptrDeleteGroupRequest p =>
              Except.ok (Any.ptrEmpty (s.DeleteGroup ctx p).1, (s.DeleteGroup ctx p).2)
            | _, _ => Except.error interfaceConversion)

def _GroupService_ListGroupMembers_Handler :
    methodHandler Ctx Group TimeInterval MonitoredResource Empty :=
  fun srv ctx dec interceptor =>
    let r := dec (ListGroupMembersRequest TimeInterval) (ListGroupMembersRequest.zero TimeInterval)
    match r.1 with
    | some err => Except.ok (Any.nil, some err)
    | none =>
      match interceptor with
      | none =>
        match srv with
        | none => Except.error interfaceConversion
        | some s => Except.ok (Any.ptrListGroupMembersResponse (s.ListGroupMembers ctx (some r.2)).1,
            (s.ListGroupMembers ctx (some r.2)).2)
      | some ic =>
        ic ctx (Any.ptrListGroupMembersRequest (some r.2))
          { Server := srv, FullMethod := "/google.monitoring.v3.GroupService/ListGroupMembers" }
          (fun ctx req =>
            match srv, req with
            | some s, Any.ptrListGroupMembersRequest p =>
              Except.ok (Any.ptrListGroupMembersResponse (s.ListGroupMembers ctx p).1,
                (s.ListGroupMembers ctx p).2)
            | _, _ => Except.error interfaceConversion)

end Handlers

def _GroupService_serviceDesc (Ctx Group TimeInterval MonitoredResource Empty : Type) :
    ServiceDesc Ctx Group TimeInterval MonitoredResource Empty :=
  { ServiceName := "google.monitoring.v3.GroupService"
    HandlerType := "*GroupServiceServer"
    Methods := [
      { MethodName := "ListGroups", Handler := _GroupService_ListGroups_Handler },
      { MethodName := "GetGroup", Handler := _GroupService_GetGroup_Handler },
      { MethodName := "CreateGroup", Handler := _GroupService_CreateGroup_Handler },
      { MethodName := "UpdateGroup", Handler := _GroupService_UpdateGroup_Handler },
      { MethodName := "DeleteGroup", Handler := _GroupService_DeleteGroup_Handler },
      { MethodName := "ListGroupMembers", Handler := _GroupService_ListGroupMembers_Handler }]
    Streams := []
    Metadata := "google/monitoring/v3/group_service.proto" }

end Monitoring

namespace EventingKafka

/-! ## Theorems -/

set_option maxRecDepth 100000

/-! ### Retry schedule -/

theorem scheduleRetry_attemptAfter (p : RetryPolicy) (n : Nat) :
    scheduleRetry p (attemptAfter p n) =
      if cumulativeDelay p (n + 1) ≤ p.maxTotalRetryTime then some (attemptAfter p (n + 1))
      else none := by
  simp [scheduleRetry, attemptAfter, cumulativeDelay]

theorem cumulativeDelay_mono (p : RetryPolicy) {m n : Nat} (h : m ≤ n) :
    cumulativeDelay p m ≤ cumulativeDelay p n := by
  induction h with
  | refl => exact Nat.le_refl _
  | step _ ih => exact Nat.le_trans ih (Nat.le_add_right _ _)

theorem initialInterval_le_retryDelay (p : RetryPolicy) (n : Nat) :
    p.initialInterval ≤ retryDelay p n := by
  unfold retryDelay
  split
  · exact Nat.le_mul_of_pos_right _ (Nat.pow_pos (by decide))
  · exact Nat.le_refl _

theorem mul_le_cumulativeDelay (p : RetryPolicy) (n : Nat) :
    n * p.initialInterval ≤ cumulativeDelay p n := by
  induction n with
  | zero => simp [cumulativeDelay]
  | succ k ih =>
    have h := initialInterval_le_retryDelay p k
    simp only [cumulativeDelay, Nat.succ_mul]
    omega

theorem retryLoop_scheduled (p : RetryPolicy) (fuel : Nat) :
    ∀ j, (∀ k, j ≤ k → k < j + fuel → cumulativeDelay p (k + 1) ≤ p.maxTotalRetryTime) →
      retryLoop p fuel (attemptAfter p j) = (DeliveryOutcome.Retryable, attemptAfter p (j + fuel)) := by
  induction fuel with
  | zero => intro j _; rfl
  | succ f ih =>
    intro j h
    have hj := h j (Nat.le_refl _) (by omega)
    have := ih (j + 1) (fun k h1 h2 => h k (by omega) (by omega))
    rw [retryLoop, scheduleRetry_attemptAfter, if_pos hj]
    simp only [this]
    congr 2
    omega

theorem retryLoop_exhausted (p : RetryPolicy) (K : Nat)
    (hK : p.maxTotalRetryTime < cumulativeDelay p (K + 1)) (fuel : Nat) :
    ∀ j, j ≤ K → K - j < fuel →
      (∀ k, j ≤ k → k < K → cumulativeDelay p (k + 1) ≤ p.maxTotalRetryTime) →
      retryLoop p fuel (attemptAfter p j) = (DeliveryOutcome.Permanent, attemptAfter p K) := by
  induction fuel with
  | zero => intro j _ h; omega
  | succ f ih =>
    intro j hj hf h
    rcases Nat.eq_or_lt_of_le hj with heq | hlt
    · subst heq
      rw [retryLoop, scheduleRetry_attemptAfter, if_neg (by omega)]
    · have h1 := h j (Nat.le_refl _) hlt
      rw [retryLoop, scheduleRetry_attemptAfter, if_pos h1]
      exact ih (j + 1) hlt (by omega) (fun k h2 h3 => h k (by omega) h3)

/-- C1: with a positive initial interval, the delay before retry `n` is
`initialInterval * 2^n` under exponential backoff (500, 1000, 2000 ms for 500 ms)
and the fixed `initialInterval` otherwise; retry `n` is scheduled exactly while
the cumulative delay including it does not exceed `maxTotalRetryTime`; once it
is exceeded no later retry is scheduled and the outcome is Permanent; and the
retry loop of an always failing delivery ends Permanent after at most
`maxTotalRetryTime` retries. -/
theorem retry_schedule (p : RetryPolicy) (hpos : 0 < p.initialInterval) (n : Nat) :
    (p.exponentialBackoff = true → retryDelay p n = p.initialInterval * 2 ^ n) ∧
    (p.exponentialBackoff = false → retryDelay p n = p.initialInterval) ∧
    (p.exponentialBackoff = true → p.initialInterval = 500 →
      retryDelay p 0 = 500 ∧ retryDelay p 1 = 1000 ∧ retryDelay p 2 = 2000) ∧
    (cumulativeDelay p (n + 1) ≤ p.maxTotalRetryTime →
      scheduleRetry p (attemptAfter p n) = some (attemptAfter p (n + 1)) ∧
      (attemptAfter p (n + 1)).nextRetryAt = (attemptAfter p n).nextRetryAt + retryDelay p n ∧
      retryOutcome p (attemptAfter p n) = DeliveryOutcome.Retryable) ∧
    (p.maxTotalRetryTime < cumulativeDelay p (n + 1) → ∀ m, n ≤ m →
      scheduleRetry p (attemptAfter p m) = none ∧
      retryOutcome p (attemptAfter p m) = DeliveryOutcome.Permanent) ∧
    (∃ K, K ≤ p.maxTotalRetryTime ∧
      (∀ fuel, fuel ≤ K →
        retryLoop p fuel firstAttempt = (DeliveryOutcome.Retryable, attemptAfter p fuel)) ∧
      (∀ fuel, K < fuel →
        retryLoop p fuel firstAttempt = (DeliveryOutcome.Permanent, attemptAfter p K))) := by
  refine ⟨?_, ?_, ?_, ?_, ?_, ?_⟩
  · intro h; simp [retryDelay, h]
  · intro h; simp [retryDelay, h]
  · intro h h5; simp [retryDelay, h, h5]
  · intro h
    have hs := scheduleRetry_attemptAfter p n
    rw [if_pos h] at hs
    exact ⟨hs, rfl, by simp [retryOutcome, hs]⟩
  · intro h m hm
    have hlt : ¬ cumulativeDelay p (m + 1) ≤ p.maxTotalRetryTime := by
      have := cumulativeDelay_mono p (Nat.succ_le_succ hm)
      simp only [Nat.succ_eq_add_one] at this
      omega
    have hs := scheduleRetry_attemptAfter p m
    rw [if_neg hlt] at hs
    exact ⟨hs, by simp [retryOutcome, hs]⟩
  · have hex : ∃ k, p.maxTotalRetryTime < cumulativeDelay p (k + 1) := by
      refine ⟨p.maxTotalRetryTime, ?_⟩
      have h1 := mul_le_cumulativeDelay p (p.maxTotalRetryTime + 1)
      have h2 : (p.maxTotalRetryTime + 1) * 1 ≤ (p.maxTotalRetryTime + 1) * p.initialInterval :=
        Nat.mul_le_mul_left _ hpos
      omega
    have hfirst : firstAttempt = attemptAfter p 0 := rfl
    refine ⟨Nat.find hex, ?_, ?_, ?_⟩
    · apply Nat.find_min' hex
      have h1 := mul_le_cumulativeDelay p (p.maxTotalRetryTime + 1)
      have h2 : (p.maxTotalRetryTime + 1) * 1 ≤ (p.maxTotalRetryTime + 1) * p.initialInterval :=
        Nat.mul_le_mul_left _ hpos
      omega
    · intro fuel hf
      rw [hfirst]
      have := retryLoop_scheduled p fuel 0 (fun k _ hk => by
        have := Nat.find_min hex (m := k) (by omega)
        omega)
      simpa using this
    · intro fuel hf
      rw [hfirst]
      exact retryLoop_exhausted p (Nat.find hex) (Nat.find_spec hex) fuel 0 (Nat.zero_le _)
        (by omega) (fun k _ hk => by
          have := Nat.find_min hex hk
          omega)

/-- Witness of `retry_schedule`: initial interval 500 ms, total retry time
3000 ms, exponential backoff, retry 1. -/
theorem retry_schedule_witness :
    (0 < (RetryPolicy.mk 500 3000 true).initialInterval) ∧
    retryDelay (RetryPolicy.mk 500 3000 true) 1 = 1000 ∧
    retryLoop (RetryPolicy.mk 500 3000 true) 10 firstAttempt =
      (DeliveryOutcome.Permanent, { attemptNumber := 2, nextRetryAt := 1500 }) :=
  ⟨by decide,
   (retry_schedule (RetryPolicy.mk 500 3000 true) (by decide) 1).1 rfl,
   by decide⟩

/-! ### ConfigWatcher -/

theorem parseDuration_cases (field s : String) :
    (∃ n, parseDuration field s = Except.ok n) ∨
      parseDuration field s = Except.error { field := field } := by
  unfold parseDuration
  cases parseNat s with
  | none => exact Or.inr rfl
  | some n => exact Or.inl ⟨n, rfl⟩

theorem validateDurations_version (raw : RawSettings) (v : Nat) (c : BrokerConfig)
    (h : validateDurations raw v = Except.ok c) : c.version = v := by
  unfold validateDurations at h
  rcases parseDuration_cases "Admin.Timeout" raw.adminTimeout with ⟨a, ha⟩ | ha <;>
    rw [ha] at h <;> simp only [bind, Except.bind] at h <;> try cases h
  rcases parseDuration_cases "Net.KeepAlive" raw.netKeepAlive with ⟨b, hb⟩ | hb <;>
    rw [hb] at h <;> simp only [bind, Except.bind] at h <;> try cases h
  rcases parseDuration_cases "Metadata.RefreshFrequency" raw.metadataRefreshFrequency
    with ⟨d, hd⟩ | hd <;>
    rw [hd] at h <;> simp only [bind, Except.bind] at h <;> try cases h
  rcases parseDuration_cases "Consumer.Offsets.AutoCommit.Interval"
    raw.consumerOffsetsAutoCommitInterval with ⟨e, he⟩ | he <;>
    rw [he] at h <;> simp only [bind, Except.bind] at h <;> try cases h
  rcases parseDuration_cases "Consumer.Offsets.Retention" raw.consumerOffsetsRetention
    with ⟨f, hf⟩ | hf <;>
    rw [hf] at h <;> simp only [bind, Except.bind] at h <;> try cases h
  rfl

theorem validateTLS_version (raw : RawSettings) (v : Nat) (c : BrokerConfig)
    (h : validateTLS raw v = Except.ok c) : c.version = v := by
  unfold validateTLS at h
  split at h
  · split at h
    · cases h
    · exact validateDurations_version raw v c h
  · exact validateDurations_version raw v c h

theorem validate_version (raw : RawSettings) (v : Nat) (c : BrokerConfig)
    (h : validate raw v = Except.ok c) : c.version = v := by
  unfold validate at h
  split at h
  · cases h
  · split at h
    · split at h
      · cases h
      · exact validateTLS_version raw v c h
    · exact validateTLS_version raw v c h

theorem onConfigChange_version_le (w : ConfigWatcher) (raw : RawSettings) :
    w.active.version ≤ (onConfigChange w raw).2.active.version := by
  unfold onConfigChange
  cases h : validate raw (w.active.version + 1) with
  | error e => exact Nat.le_refl _
  | ok c =>
    have := validate_version raw _ c h
    simp only
    omega

theorem applyUpdates_version_le (updates : List RawSettings) :
    ∀ w : ConfigWatcher, w.active.version ≤ (applyUpdates w updates).active.version := by
  induction updates with
  | nil => intro w; exact Nat.le_refl _
  | cons raw rest ih =>
    intro w
    exact Nat.le_trans (onConfigChange_version_le w raw) (ih _)

/-- C2: a candidate with `producerIdempotent = true` and
`producerRequiredAcks = WaitForLocal` is rejected by `onConfigChange` with the
ConfigError naming `Producer.RequiredAcks`, and the watcher, hence the active
BrokerConfig, is the same after the call as before. -/
theorem config_rejection (w : ConfigWatcher) (raw : RawSettings)
    (hi : raw.producerIdempotent = true)
    (ha : raw.producerRequiredAcks = RequiredAcks.WaitForLocal) :
    (onConfigChange w raw).1 = Except.error { field := "Producer.RequiredAcks" } ∧
    (onConfigChange w raw).2.active = w.active ∧
    (onConfigChange w raw).2 = w := by
  have hv : validate raw (w.active.version + 1) =
      Except.error { field := "Producer.RequiredAcks" } := by
    unfold validate
    rw [if_pos (by simp [idempotenceOk, hi, ha])]
  simp [onConfigChange, hv]

/-- A valid candidate built from the default Sarama test settings. -/
def sampleSettings : RawSettings :=
  { brokerAddresses := ["kafka:9092"]
    tls := none
    sasl := some { mechanism := "PLAIN", user := OldUsername, password := OldPassword }
    clientID := OldClientId
    adminTimeout := ConfigAdminTimeout
    netKeepAlive := ConfigNetKeepAlive
    metadataRefreshFrequency := ConfigMetadataRefreshFrequency
    consumerOffsetsAutoCommitInterval := ConfigConsumerOffsetsAutoCommitInterval
    consumerOffsetsRetention := ConfigConsumerOffsetsRetention
    producerIdempotent := false
    producerRequiredAcks := RequiredAcks.WaitForAll }

/-- The BrokerConfig of `sampleSettings` at a given version. -/
def sampleConfig (version : Nat) : BrokerConfig :=
  { brokerAddresses := ["kafka:9092"]
    tls := none
    sasl := some { mechanism := "PLAIN", user := OldUsername, password := OldPassword }
    clientID := OldClientId
    adminTimeout := 10000000000
    netKeepAlive := 30000000000
    metadataRefreshInterval := 300000000000
    consumerOffsetsAutoCommitInterval := 5000000000
    consumerOffsetsRetention := 604800000000000
    producerIdempotent := false
    producerRequiredAcks := RequiredAcks.WaitForAll
    version := version }

/-- A watcher whose active config is `sampleConfig 7`. -/
def sampleWatcher : ConfigWatcher := { active := sampleConfig 7, latest := none }

/-- Witness of `config_rejection`: the sample candidate made idempotent with
`WaitForLocal`, offered to the sample watcher. -/
theorem config_rejection_witness :
    (onConfigChange sampleWatcher
      { sampleSettings with producerIdempotent := true,
                            producerRequiredAcks := RequiredAcks.WaitForLocal }).1 =
      Except.error { field := "Producer.RequiredAcks" } ∧
    (onConfigChange sampleWatcher
      { sampleSettings with producerIdempotent := true,
                            producerRequiredAcks := RequiredAcks.WaitForLocal }).2.active.version = 7 :=
  ⟨(config_rejection sampleWatcher
      { sampleSettings with producerIdempotent := true,
                            producerRequiredAcks := RequiredAcks.WaitForLocal } rfl rfl).1,
   by rw [(config_rejection sampleWatcher
      { sampleSettings with producerIdempotent := true,
                            producerRequiredAcks := RequiredAcks.WaitForLocal } rfl rfl).2.1]; rfl⟩

/-- The sample candidate is accepted by the sample watcher and gets version 8;
with a malformed duration it is rejected naming that field. -/
theorem onConfigChange_sample :
    onConfigChange sampleWatcher sampleSettings =
      (Except.ok (sampleConfig 8), { active := sampleConfig 8, latest := some (sampleConfig 8) }) ∧
    onConfigChange sampleWatcher { sampleSettings with netKeepAlive := "30s" } =
      (Except.error { field := "Net.KeepAlive" }, sampleWatcher) := by
  constructor <;> rfl

/-- C3: after any sequence of config updates, an accepted candidate yields the
new active BrokerConfig with a version strictly greater than that of the
config active before it, and a rejected candidate leaves the watcher, hence
the version, unchanged; across the whole sequence the version never decreases. -/
theorem version_monotonicity (w0 : ConfigWatcher) (updates : List RawSettings)
    (raw : RawSettings) :
    w0.active.version ≤ (applyUpdates w0 updates).active.version ∧
    match onConfigChange (applyUpdates w0 updates) raw with
    | (Except.ok c, w') =>
        w'.active = c ∧ (applyUpdates w0 updates).active.version < c.version
    | (Except.error _, w') =>
        w' = applyUpdates w0 updates ∧
        w'.active.version = (applyUpdates w0 updates).active.version := by
  refine ⟨applyUpdates_version_le updates w0, ?_⟩
  generalize applyUpdates w0 updates = w
  unfold onConfigChange
  cases h : validate raw (w.active.version + 1) with
  | error e => exact ⟨rfl, rfl⟩
  | ok c =>
    have := validate_version raw _ c h
    simp only
    exact ⟨trivial, by omega⟩

/-! ### ConsumerGroupManager -/

theorem finishStop_beginStop_status (h : ConsumerGroupHandle) :
    (finishStop (beginStop h)).status = Status.Stopped := by
  unfold finishStop beginStop
  by_cases hs : h.status = Status.Stopped
  · simp [hs]
  · simp [hs]

theorem finishStop_beginStop_subscriptionID (h : ConsumerGroupHandle) :
    (finishStop (beginStop h)).subscriptionID = h.subscriptionID := by
  unfold finishStop beginStop
  by_cases hs : h.status = Status.Stopped
  · simp [hs]
  · simp [hs]

theorem finishStop_beginStop_of_stopped (h : ConsumerGroupHandle)
    (hs : h.status = Status.Stopped) : finishStop (beginStop h) = h := by
  unfold finishStop beginStop
  simp [hs]

theorem stopHandles_idem (id : String) (m : ConsumerGroupManager) :
    stopHandles id (stopHandles id m) = stopHandles id m := by
  unfold stopHandles
  simp only [List.map_map, ConsumerGroupManager.mk.injEq]
  apply List.map_congr_left
  intro h _
  simp only [Function.comp]
  by_cases hid : h.subscriptionID = id
  · simp only [hid, if_true, finishStop_beginStop_subscriptionID]
    exact finishStop_beginStop_of_stopped _ (finishStop_beginStop_status h)
  · simp only [hid, if_false]

theorem stopHandles_status (id : String) (m : ConsumerGroupManager) :
    ∀ h ∈ (stopHandles id m).handles, h.subscriptionID = id → h.status = Status.Stopped := by
  intro h hmem hid
  unfold stopHandles at hmem
  simp only [List.mem_map] at hmem
  obtain ⟨g, _, hg⟩ := hmem
  by_cases hgid : g.subscriptionID = id
  · rw [if_pos hgid] at hg
    rw [← hg]
    exact finishStop_beginStop_status g
  · rw [if_neg hgid] at hg
    rw [hg] at hgid
    exact absurd hid hgid

theorem stopHandles_unknown (id : String) (m : ConsumerGroupManager)
    (hno : ∀ h ∈ m.handles, h.subscriptionID ≠ id) : stopHandles id m = m := by
  unfold stopHandles
  have : m.handles.map (fun h =>
      if h.subscriptionID = id then finishStop (beginStop h) else h) = m.handles.map (fun h => h) := by
    apply List.map_congr_left
    intro h hm
    simp [hno h hm]
  rw [this]
  simp

/-- C4: for every manager state and every subscription id, `stop(id)` returns
no error; a second `stop(id)` returns no error and leaves the state of the
first; every handle of the subscription is then `Stopped`; and for an id
without a handle the state is not changed at all. -/
theorem stop_idempotent (m : ConsumerGroupManager) (id : String) :
    ∃ m', stop id m = Except.ok m' ∧ stop id m' = Except.ok m' ∧
      (∀ h ∈ m'.handles, h.subscriptionID = id → h.status = Status.Stopped) ∧
      ((∀ h ∈ m.handles, h.subscriptionID ≠ id) → m' = m) := by
  refine ⟨stopHandles id m, rfl, ?_, stopHandles_status id m, stopHandles_unknown id m⟩
  unfold stop
  rw [stopHandles_idem]

/-- No two handles of a manager belong to the same subscription. -/
def DistinctSubscriptions (m : ConsumerGroupManager) : Prop :=
  m.handles.Pairwise (fun a b => a.subscriptionID ≠ b.subscriptionID)

theorem stopHandles_distinct (id : String) (m : ConsumerGroupManager)
    (hd : DistinctSubscriptions m) : DistinctSubscriptions (stopHandles id m) := by
  unfold DistinctSubscriptions stopHandles at *
  simp only [List.pairwise_map]
  refine hd.imp ?_
  intro a b hab
  have ha : (if a.subscriptionID = id then finishStop (beginStop a) else a).subscriptionID
      = a.subscriptionID := by
    split
    · exact finishStop_beginStop_subscriptionID a
    · rfl
  have hb : (if b.subscriptionID = id then finishStop (beginStop b) else b).subscriptionID
      = b.subscriptionID := by
    split
    · exact finishStop_beginStop_subscriptionID b
    · rfl
  rw [ha, hb]
  exact hab

theorem start_distinct (connect : String → Bool) (config : BrokerConfig) (id : String)
    (m : ConsumerGroupManager) (hd : DistinctSubscriptions m) :
    DistinctSubscriptions (start connect config id m) := by
  unfold DistinctSubscriptions start at *
  simp only [List.pairwise_cons]
  refine ⟨?_, hd.filter _⟩
  intro b hb
  simp only [List.mem_filter, decide_eq_true_eq] at hb
  exact fun h => hb.2 h.symm

theorem reconcileOne_distinct (connect : String → Bool) (config : BrokerConfig)
    (m : ConsumerGroupManager) (id : String) (hd : DistinctSubscriptions m) :
    DistinctSubscriptions (reconcileOne connect config m id) := by
  unfold reconcileOne
  split
  · exact start_distinct connect config id m hd
  · split
    · exact start_distinct connect config id m hd
    · split
      · exact start_distinct connect config id _ (stopHandles_distinct id m hd)
      · exact hd

theorem stopRemoved_distinct (desired : List String) (m : ConsumerGroupManager)
    (hd : DistinctSubscriptions m) : DistinctSubscriptions (stopRemoved desired m) := by
  unfold stopRemoved
  generalize m.handles.map (fun h => h.subscriptionID) = ids
  induction ids generalizing m with
  | nil => exact hd
  | cons id rest ih =>
    simp only [List.foldl_cons]
    apply ih
    split
    · exact hd
    · exact stopHandles_distinct id m hd

theorem reconcile_distinct (connect : String → Bool) (desired : List String)
    (config : BrokerConfig) (m : ConsumerGroupManager) (hd : DistinctSubscriptions m) :
    DistinctSubscriptions (reconcile connect desired config m) := by
  unfold reconcile
  have h0 := stopRemoved_distinct desired m hd
  generalize stopRemoved desired m = m0 at h0
  clear hd
  induction desired generalizing m0 with
  | nil => exact h0
  | cons id rest ih =>
    simp only [List.foldl_cons]
    exact ih _ (reconcileOne_distinct connect config m0 id h0)

theorem reachable_distinct (m : ConsumerGroupManager) (hr : Reachable m) :
    DistinctSubscriptions m := by
  induction hr with
  | init => exact List.Pairwise.nil
  | byReconcile connect desired config m _ ih => exact reconcile_distinct connect desired config m ih
  | byStop id m m' _ hs ih =>
    unfold stop at hs
    cases hs
    exact stopHandles_distinct id m ih

theorem distinct_runningCount (m : ConsumerGroupManager) (hd : DistinctSubscriptions m)
    (id : String) : runningCount m id ≤ 1 := by
  unfold runningCount DistinctSubscriptions at *
  generalize m.handles = l at hd
  induction l with
  | nil => simp
  | cons a t ih =>
    rw [List.pairwise_cons] at hd
    by_cases ha : a.subscriptionID = id ∧ a.status = Status.Running
    · have ht : t.filter (fun h => h.subscriptionID = id ∧ h.status = Status.Running) = [] := by
        rw [List.filter_eq_nil_iff]
        intro b hb
        have := hd.1 b hb
        simp only [decide_eq_true_eq, not_and]
        intro hbid
        exact absurd (ha.1.trans hbid.symm) this
      rw [List.filter_cons_of_pos (by simpa using ha), ht]
      simp
    · rw [List.filter_cons_of_neg (by simpa using ha)]
      exact ih hd.2

/-- C5: in every state reachable from the empty manager through `reconcile`
and `stop`, each subscription id has at most one handle with status `Running`. -/
theorem no_duplicate_consumption (m : ConsumerGroupManager) (hr : Reachable m) (id : String) :
    runningCount m id ≤ 1 :=
  distinct_runningCount m (reachable_distinct m hr) id

/-- Witness of `no_duplicate_consumption`: two reconciliation passes, the second
with a newer BrokerConfig, so that the handle of subscription `a` is replaced. -/
theorem no_duplicate_consumption_witness :
    runningCount
      (reconcile (fun _ => true) ["a"] (sampleConfig 2)
        (reconcile (fun _ => true) ["a", "b"] (sampleConfig 1) ConsumerGroupManager.empty)) "a" = 1 ∧
    runningCount
      (reconcile (fun _ => true) ["a"] (sampleConfig 2)
        (reconcile (fun _ => true) ["a", "b"] (sampleConfig 1) ConsumerGroupManager.empty)) "a" ≤ 1 :=
  ⟨by decide,
   no_duplicate_consumption _
     (Reachable.byReconcile _ _ _ _ (Reachable.byReconcile _ _ _ _ Reachable.init)) "a"⟩

/-! ### The test constants -/

/-- C6: the dispatcher settings of TestEKConfig are initial interval 5000 ms,
total retry time 500000 ms and exponential backoff; the delays of retries 0..5
are 5000, 10000, 20000, 40000, 80000, 160000 ms with cumulative delay
315000 ms, within the total retry time; retry 6 would wait 320000 ms and bring
the cumulative delay to 635000 ms, beyond it; so the retry loop schedules
exactly 6 retries and then ends Permanent. -/
theorem testEKConfig_six_retries :
    parseNat DispatcherRetryInitial = some 5000 ∧
    parseNat DispatcherRetry = some 500000 ∧
    dispatcherRetryPolicy TestEKConfig =
      some { initialInterval := 5000, maxTotalRetryTime := 500000, exponentialBackoff := true } ∧
    (List.range 6).map (retryDelay (RetryPolicy.mk 5000 500000 true)) =
      [5000, 10000, 20000, 40000, 80000, 160000] ∧
    cumulativeDelay (RetryPolicy.mk 5000 500000 true) 6 = 315000 ∧
    cumulativeDelay (RetryPolicy.mk 5000 500000 true) 6 ≤ 500000 ∧
    retryDelay (RetryPolicy.mk 5000 500000 true) 6 = 320000 ∧
    cumulativeDelay (RetryPolicy.mk 5000 500000 true) 7 = 635000 ∧
    500000 < cumulativeDelay (RetryPolicy.mk 5000 500000 true) 7 ∧
    retryLoop (RetryPolicy.mk 5000 500000 true) 6 firstAttempt =
      (DeliveryOutcome.Retryable, { attemptNumber := 6, nextRetryAt := 315000 }) ∧
    ∀ fuel, retryLoop (RetryPolicy.mk 5000 500000 true) (7 + fuel) firstAttempt =
      (DeliveryOutcome.Permanent, { attemptNumber := 6, nextRetryAt := 315000 }) := by
  refine ⟨by decide, by decide, by decide, by decide, by decide, by decide, by decide,
    by decide, by decide, by decide, ?_⟩
  intro fuel
  have h := retryLoop_exhausted (RetryPolicy.mk 5000 500000 true) 6 (by decide) (7 + fuel) 0
    (by decide) (by omega) (fun k _ hk => by
      have : cumulativeDelay (RetryPolicy.mk 5000 500000 true) (k + 1) ≤
          cumulativeDelay (RetryPolicy.mk 5000 500000 true) 6 :=
        cumulativeDelay_mono _ (by omega)
      have h6 : cumulativeDelay (RetryPolicy.mk 5000 500000 true) 6 = 315000 := by decide
      simp only [h6] at this
      exact Nat.le_trans this (by decide))
  exact h

/-- C7: ConfigProducerIdempotent is "false" and ConfigProducerRequiredAcks is
"-1", Sarama's WaitForAll; SaramaDefaultConfigYaml carries exactly these values,
once each, under Producer.Idempotent and Producer.RequiredAcks; and the
producer settings read from it satisfy the idempotence invariant. -/
theorem saramaDefault_idempotence_invariant :
    ConfigProducerIdempotent = "false" ∧
    ConfigProducerRequiredAcks = "-1" ∧
    parseBool ConfigProducerIdempotent = some false ∧
    parseRequiredAcks ConfigProducerRequiredAcks = some RequiredAcks.WaitForAll ∧
    yamlValues SaramaDefaultConfigYaml ["Producer", "Idempotent"] = [ConfigProducerIdempotent] ∧
    yamlValues SaramaDefaultConfigYaml ["Producer", "RequiredAcks"] = [ConfigProducerRequiredAcks] ∧
    producerSettings SaramaDefaultConfigYaml = some (false, RequiredAcks.WaitForAll) ∧
    idempotenceOk false RequiredAcks.WaitForAll = true := by
  refine ⟨by decide, by decide, by decide, by decide, by decide, by decide, by decide, by decide⟩

/-- C8: OldSaramaConfig and NewSaramaConfig each set Net.SASL.Enable to true
and carry, once each, the user and password constants (OldUsername and
OldPassword, NewUsername and NewPassword), which are non-empty; both satisfy
the SASL invariant. -/
theorem credential_configs_sasl_invariant :
    yamlValues OldSaramaConfig ["Net", "SASL", "Enable"] = ["true"] ∧
    yamlValues OldSaramaConfig ["Net", "SASL", "User"] = [OldUsername] ∧
    yamlValues OldSaramaConfig ["Net", "SASL", "Password"] = [OldPassword] ∧
    yamlValues NewSaramaConfig ["Net", "SASL", "Enable"] = ["true"] ∧
    yamlValues NewSaramaConfig ["Net", "SASL", "User"] = [NewUsername] ∧
    yamlValues NewSaramaConfig ["Net", "SASL", "Password"] = [NewPassword] ∧
    OldUsername ≠ "" ∧ OldPassword ≠ "" ∧ NewUsername ≠ "" ∧ NewPassword ≠ "" ∧
    saslSettings OldSaramaConfig = some (true, OldUsername, OldPassword) ∧
    saslSettings NewSaramaConfig = some (true, NewUsername, NewPassword) ∧
    saslOk true OldUsername OldPassword = true ∧
    saslOk true NewUsername NewPassword = true := by
  and_intros <;> decide

/-- C9: each of the five Sarama duration constants is the decimal string of a
positive number of nanoseconds that is a whole number of seconds: 10 s, 30 s,
300 s, 5 s and 604800 s (7 days); and the Metadata.RefreshFrequency value of
OldSaramaConfig and of NewSaramaConfig is ConfigMetadataRefreshFrequency. -/
theorem duration_constants_nanoseconds :
    parseNat ConfigAdminTimeout = some (10 * nanosPerSecond) ∧
    parseNat ConfigNetKeepAlive = some (30 * nanosPerSecond) ∧
    parseNat ConfigMetadataRefreshFrequency = some (300 * nanosPerSecond) ∧
    parseNat ConfigConsumerOffsetsAutoCommitInterval = some (5 * nanosPerSecond) ∧
    parseNat ConfigConsumerOffsetsRetention = some (604800 * nanosPerSecond) ∧
    604800 = 7 * 24 * 60 * 60 ∧
    0 < 10 * nanosPerSecond ∧ 0 < 30 * nanosPerSecond ∧ 0 < 300 * nanosPerSecond ∧
    0 < 5 * nanosPerSecond ∧ 0 < 604800 * nanosPerSecond ∧
    yamlValues OldSaramaConfig ["Metadata", "RefreshFrequency"] = [ConfigMetadataRefreshFrequency] ∧
    yamlValues NewSaramaConfig ["Metadata", "RefreshFrequency"] = [ConfigMetadataRefreshFrequency] := by
  and_intros <;> decide

/-- C10: SaramaDefaultConfigYaml carries, once each and under the names of the
spec, the broker-tuning fields with the values of their constants:
Admin.Timeout, Net.KeepAlive, Metadata.RefreshFrequency,
Consumer.Offsets.AutoCommit.Interval, Consumer.Offsets.Retention,
Producer.Idempotent and Producer.RequiredAcks. -/
theorem saramaDefault_fields :
    yamlValues SaramaDefaultConfigYaml ["Admin", "Timeout"] = [ConfigAdminTimeout] ∧
    yamlValues SaramaDefaultConfigYaml ["Net", "KeepAlive"] = [ConfigNetKeepAlive] ∧
    yamlValues SaramaDefaultConfigYaml ["Metadata", "RefreshFrequency"] =
      [ConfigMetadataRefreshFrequency] ∧
    yamlValues SaramaDefaultConfigYaml ["Consumer", "Offsets", "AutoCommit", "Interval"] =
      [ConfigConsumerOffsetsAutoCommitInterval] ∧
    yamlValues SaramaDefaultConfigYaml ["Consumer", "Offsets", "Retention"] =
      [ConfigConsumerOffsetsRetention] ∧
    yamlValues SaramaDefaultConfigYaml ["Producer", "Idempotent"] = [ConfigProducerIdempotent] ∧
    yamlValues SaramaDefaultConfigYaml ["Producer", "RequiredAcks"] =
      [ConfigProducerRequiredAcks] := by
  refine ⟨by decide, by decide, by decide, by decide, by decide, by decide, by decide⟩

/-- C11: TestEKConfig carries, once each and under the `dispatcher` key, the four
dispatcher-level fields: replicas = DispatcherReplicas = 3,
retryInitialIntervalMillis = DispatcherRetryInitial = 5000, retryTimeMillis =
DispatcherRetry = 500000 and retryExponentialBackoff = true; the three string
constants are decimal strings of positive integers and the fourth value is a
boolean. -/
theorem testEKConfig_dispatcher_fields :
    yamlValues TestEKConfig ["dispatcher", "replicas"] = [DispatcherReplicas] ∧
    yamlValues TestEKConfig ["dispatcher", "retryInitialIntervalMillis"] =
      [DispatcherRetryInitial] ∧
    yamlValues TestEKConfig ["dispatcher", "retryTimeMillis"] = [DispatcherRetry] ∧
    yamlValues TestEKConfig ["dispatcher", "retryExponentialBackoff"] = ["true"] ∧
    parseNat DispatcherReplicas = some 3 ∧
    parseNat DispatcherRetryInitial = some 5000 ∧
    parseNat DispatcherRetry = some 500000 ∧
    parseBool "true" = some true ∧
    (0 < 3 ∧ 0 < 5000 ∧ 0 < 500000) := by
  refine ⟨by decide, by decide, by decide, by decide, by decide, by decide, by decide,
    by decide, by decide⟩

/-- C18: the old and the new test credentials differ in client id, user name
and password, and OldSaramaConfig and NewSaramaConfig are different strings;
the two configs differ in Net.SASL.User and Net.SASL.Password and in the
top-level ClientID and Version keys, which only NewSaramaConfig carries; they
agree on Net.TLS.Enable, Net.SASL.Enable, Net.SASL.Mechanism (PLAIN) and
Metadata.RefreshFrequency. -/
theorem credential_rotation :
    OldClientId ≠ NewClientId ∧ OldUsername ≠ NewUsername ∧ OldPassword ≠ NewPassword ∧
    OldSaramaConfig ≠ NewSaramaConfig ∧
    yamlValues OldSaramaConfig ["Net", "SASL", "User"] = [OldUsername] ∧
    yamlValues NewSaramaConfig ["Net", "SASL", "User"] = [NewUsername] ∧
    yamlValues OldSaramaConfig ["Net", "SASL", "Password"] = [OldPassword] ∧
    yamlValues NewSaramaConfig ["Net", "SASL", "Password"] = [NewPassword] ∧
    yamlValues OldSaramaConfig ["ClientID"] = [] ∧
    yamlValues NewSaramaConfig ["ClientID"] = [NewClientId] ∧
    yamlValues OldSaramaConfig ["Version"] = [] ∧
    yamlValues NewSaramaConfig ["Version"] = ["2.3.0"] ∧
    yamlValues OldSaramaConfig ["Net", "TLS", "Enable"] = ["true"] ∧
    yamlValues NewSaramaConfig ["Net", "TLS", "Enable"] = ["true"] ∧
    yamlValues OldSaramaConfig ["Net", "SASL", "Enable"] = ["true"] ∧
    yamlValues NewSaramaConfig ["Net", "SASL", "Enable"] = ["true"] ∧
    yamlValues OldSaramaConfig ["Net", "SASL", "Mechanism"] = ["PLAIN"] ∧
    yamlValues NewSaramaConfig ["Net", "SASL", "Mechanism"] = ["PLAIN"] ∧
    yamlValues OldSaramaConfig ["Metadata", "RefreshFrequency"] =
      yamlValues NewSaramaConfig ["Metadata", "RefreshFrequency"] ∧
    yamlValues NewSaramaConfig ["Metadata", "RefreshFrequency"] = ["300000000000"] ∧
    (yamlEntries NewSaramaConfig).filter (fun e => e ∉ yamlEntries OldSaramaConfig) =
      [(["Version"], "2.3.0"), (["Net", "SASL", "User"], NewUsername),
       (["Net", "SASL", "Password"], NewPassword), (["ClientID"], NewClientId)] ∧
    (yamlEntries OldSaramaConfig).filter (fun e => e ∉ yamlEntries NewSaramaConfig) =
      [(["Net", "SASL", "User"], OldUsername), (["Net", "SASL", "Password"], OldPassword)] := by
  and_intros <;> decide

end EventingKafka

namespace Monitoring

/-! ### group_service.pb.go: server stub and getters -/

/-- The results of a call that is rejected as unimplemented under the given
method name: a nil response and a non-nil error with code Unimplemented and
the message `method <name> not implemented`. -/
def RejectsAs {α : Type} (name : String) (r : Ptr α × Option GoError) : Prop :=
  r.1 = none ∧ r.2 ≠ none ∧ status.Code r.2 = codes.Code.Unimplemented ∧
    status.Message r.2 = some ("method " ++ name ++ " not implemented")

/-- C12: each of the six methods of UnimplementedGroupServiceServer, for every
receiver, context and request (a nil request included), returns a nil response
and a non-nil error whose gRPC code is Unimplemented and whose message is
`method <MethodName> not implemented` with the name of the method itself. -/
theorem unimplemented_rejects_every_call {Ctx Group TimeInterval MonitoredResource Empty : Type}
    (s : Ptr UnimplementedGroupServiceServer) (ctx : Ctx) :
    (∀ req, RejectsAs "ListGroups"
      (UnimplementedGroupServiceServer.ListGroups s ctx req :
        Ptr (ListGroupsResponse Group) × Option GoError)) ∧
    (∀ req, RejectsAs "GetGroup"
      (UnimplementedGroupServiceServer.GetGroup s ctx req : Ptr Group × Option GoError)) ∧
    (∀ req : Ptr (CreateGroupRequest Group), RejectsAs "CreateGroup"
      (UnimplementedGroupServiceServer.CreateGroup s ctx req : Ptr Group × Option GoError)) ∧
    (∀ req : Ptr (UpdateGroupRequest Group), RejectsAs "UpdateGroup"
      (UnimplementedGroupServiceServer.UpdateGroup s ctx req : Ptr Group × Option GoError)) ∧
    (∀ req, RejectsAs "DeleteGroup"
      (UnimplementedGroupServiceServer.DeleteGroup s ctx req : Ptr Empty × Option GoError)) ∧
    (∀ req : Ptr (ListGroupMembersRequest TimeInterval), RejectsAs "ListGroupMembers"
      (UnimplementedGroupServiceServer.ListGroupMembers s ctx req :
        Ptr (ListGroupMembersResponse MonitoredResource) × Option GoError)) := by
  refine ⟨?_, ?_, ?_, ?_, ?_, ?_⟩ <;> intro req <;>
    refine ⟨rfl, ?_, rfl, ?_⟩ <;>
    first
      | (intro h; cases h)
      | rfl

/-- A request whose filter holds a nil `*ListGroupsRequest_ChildrenOfGroup`. -/
def nilChildrenRequest : ListGroupsRequest :=
  { ListGroupsRequest.zero with Filter := isListGroupsRequest_Filter.ChildrenOfGroup none }

/-- Counterexample to C13 as stated: for the request whose filter holds a nil
`*ListGroupsRequest_ChildrenOfGroup`, the filter is not a non-nil pointer
holding a string, and yet `GetChildrenOfGroup` does not return the empty
string: the call panics on the nil pointer. -/
theorem getChildrenOfGroup_nil_wrapper :
    (∀ s : String, nilChildrenRequest.Filter ≠
      isListGroupsRequest_Filter.ChildrenOfGroup (some { ChildrenOfGroup := s })) ∧
    ListGroupsRequest.GetChildrenOfGroup (some nilChildrenRequest) ≠ Except.ok "" ∧
    ListGroupsRequest.GetChildrenOfGroup (some nilChildrenRequest) =
      Except.error nilDereference := by
  refine ⟨?_, ?_, rfl⟩
  · intro s h
    cases h
  · intro h
    cases h

/-- C13, amended: `GetFilter` is nil for a nil request and the stored filter
otherwise; `GetChildrenOfGroup` returns `s` when the filter is a non-nil
`*ListGroupsRequest_ChildrenOfGroup` holding `s`, returns the empty string
when the filter is nil or of another variant, and panics when the filter holds
a nil `*ListGroupsRequest_ChildrenOfGroup`; likewise `GetAncestorsOfGroup` and
`GetDescendantsOfGroup` with their own variants. -/
theorem oneof_getters (m : Ptr ListGroupsRequest) :
    ListGroupsRequest.GetFilter none = isListGroupsRequest_Filter.nil ∧
    (∀ r, ListGroupsRequest.GetFilter (some r) = r.Filter) ∧
    (∀ s, ListGroupsRequest.GetFilter m =
        isListGroupsRequest_Filter.ChildrenOfGroup (some { ChildrenOfGroup := s }) →
      ListGroupsRequest.GetChildrenOfGroup m = Except.ok s) ∧
    (∀ s, ListGroupsRequest.GetFilter m =
        isListGroupsRequest_Filter.AncestorsOfGroup (some { AncestorsOfGroup := s }) →
      ListGroupsRequest.GetAncestorsOfGroup m = Except.ok s) ∧
    (∀ s, ListGroupsRequest.GetFilter m =
        isListGroupsRequest_Filter.DescendantsOfGroup (some { DescendantsOfGroup := s }) →
      ListGroupsRequest.GetDescendantsOfGroup m = Except.ok s) ∧
    (ListGroupsRequest.GetFilter m = isListGroupsRequest_Filter.nil →
      ListGroupsRequest.GetChildrenOfGroup m = Except.ok "" ∧
      ListGroupsRequest.GetAncestorsOfGroup m = Except.ok "" ∧
      ListGroupsRequest.GetDescendantsOfGroup m = Except.ok "") ∧
    (∀ x, ListGroupsRequest.GetFilter m = isListGroupsRequest_Filter.ChildrenOfGroup x →
      ListGroupsRequest.GetAncestorsOfGroup m = Except.ok "" ∧
      ListGroupsRequest.GetDescendantsOfGroup m = Except.ok "") ∧
    (∀ x, ListGroupsRequest.GetFilter m = isListGroupsRequest_Filter.AncestorsOfGroup x →
      ListGroupsRequest.GetChildrenOfGroup m = Except.ok "" ∧
      ListGroupsRequest.GetDescendantsOfGroup m = Except.ok "") ∧
    (∀ x, ListGroupsRequest.GetFilter m = isListGroupsRequest_Filter.DescendantsOfGroup x →
      ListGroupsRequest.GetChildrenOfGroup m = Except.ok "" ∧
      ListGroupsRequest.GetAncestorsOfGroup m = Except.ok "") ∧
    (ListGroupsRequest.GetFilter m = isListGroupsRequest_Filter.ChildrenOfGroup none →
      ListGroupsRequest.GetChildrenOfGroup m = Except.error nilDereference) ∧
    (ListGroupsRequest.GetFilter m = isListGroupsRequest_Filter.AncestorsOfGroup none →
      ListGroupsRequest.GetAncestorsOfGroup m = Except.error nilDereference) ∧
    (ListGroupsRequest.GetFilter m = isListGroupsRequest_Filter.DescendantsOfGroup none →
      ListGroupsRequest.GetDescendantsOfGroup m = Except.error nilDereference) := by
  refine ⟨rfl, fun _ => rfl, ?_, ?_, ?_, ?_, ?_, ?_, ?_, ?_, ?_, ?_⟩ <;>
    intros <;>
    simp_all [ListGroupsRequest.GetChildrenOfGroup, ListGroupsRequest.GetAncestorsOfGroup,
      ListGroupsRequest.GetDescendantsOfGroup]

end Monitoring

namespace Monitoring

/-- C14: every plain-field getter of the eight messages returns the zero value
of the field type on a nil receiver (the empty string, 0, false, nil) and the
stored field on a non-nil receiver. -/
theorem field_getters_nil_safe {Group TimeInterval MonitoredResource : Type} :
    (ListGroupsRequest.GetName none = "" ∧ ∀ m, ListGroupsRequest.GetName (some m) = m.Name) ∧
    (ListGroupsRequest.GetFilter none = isListGroupsRequest_Filter.nil ∧
      ∀ m, ListGroupsRequest.GetFilter (some m) = m.Filter) ∧
    (ListGroupsRequest.GetPageSize none = 0 ∧
      ∀ m, ListGroupsRequest.GetPageSize (some m) = m.PageSize) ∧
    (ListGroupsRequest.GetPageToken none = "" ∧
      ∀ m, ListGroupsRequest.GetPageToken (some m) = m.PageToken) ∧
    (ListGroupsResponse.GetGroup (none : Ptr (ListGroupsResponse Group)) = none ∧
      ∀ m : ListGroupsResponse Group, ListGroupsResponse.GetGroup (some m) = m.Group) ∧
    (ListGroupsResponse.GetNextPageToken (none : Ptr (ListGroupsResponse Group)) = "" ∧
      ∀ m : ListGroupsResponse Group,
        ListGroupsResponse.GetNextPageToken (some m) = m.NextPageToken) ∧
    (GetGroupRequest.GetName none = "" ∧ ∀ m, GetGroupRequest.GetName (some m) = m.Name) ∧
    (CreateGroupRequest.GetName (none : Ptr (CreateGroupRequest Group)) = "" ∧
      ∀ m : CreateGroupRequest Group, CreateGroupRequest.GetName (some m) = m.Name) ∧
    (CreateGroupRequest.GetGroup (none : Ptr (CreateGroupRequest Group)) = none ∧
      ∀ m : CreateGroupRequest Group, CreateGroupRequest.GetGroup (some m) = m.Group) ∧
    (CreateGroupRequest.GetValidateOnly (none : Ptr (CreateGroupRequest Group)) = false ∧
      ∀ m : CreateGroupRequest Group,
        CreateGroupRequest.GetValidateOnly (some m) = m.ValidateOnly) ∧
    (UpdateGroupRequest.GetGroup (none : Ptr (UpdateGroupRequest Group)) = none ∧
      ∀ m : UpdateGroupRequest Group, UpdateGroupRequest.GetGroup (some m) = m.Group) ∧
    (UpdateGroupRequest.GetValidateOnly (none : Ptr (UpdateGroupRequest Group)) = false ∧
      ∀ m : UpdateGroupRequest Group,
        UpdateGroupRequest.GetValidateOnly (some m) = m.ValidateOnly) ∧
    (DeleteGroupRequest.GetName none = "" ∧ ∀ m, DeleteGroupRequest.GetName (some m) = m.Name) ∧
    (DeleteGroupRequest.GetRecursive none = false ∧
      ∀ m, DeleteGroupRequest.GetRecursive (some m) = m.Recursive) ∧
    (ListGroupMembersRequest.GetName (none : Ptr (ListGroupMembersRequest TimeInterval)) = "" ∧
      ∀ m : ListGroupMembersRequest TimeInterval,
        ListGroupMembersRequest.GetName (some m) = m.Name) ∧
    (ListGroupMembersRequest.GetPageSize (none : Ptr (ListGroupMembersRequest TimeInterval)) = 0 ∧
      ∀ m : ListGroupMembersRequest TimeInterval,
        ListGroupMembersRequest.GetPageSize (some m) = m.PageSize) ∧
    (ListGroupMembersRequest.GetPageToken (none : Ptr (ListGroupMembersRequest TimeInterval)) = "" ∧
      ∀ m : ListGroupMembersRequest TimeInterval,
        ListGroupMembersRequest.GetPageToken (some m) = m.PageToken) ∧
    (ListGroupMembersRequest.GetFilter (none : Ptr (ListGroupMembersRequest TimeInterval)) = "" ∧
      ∀ m : ListGroupMembersRequest TimeInterval,
        ListGroupMembersRequest.GetFilter (some m) = m.Filter) ∧
    (ListGroupMembersRequest.GetInterval (none : Ptr (ListGroupMembersRequest TimeInterval)) = none ∧
      ∀ m : ListGroupMembersRequest TimeInterval,
        ListGroupMembersRequest.GetInterval (some m) = m.Interval) ∧
    (ListGroupMembersResponse.GetMembers
        (none : Ptr (ListGroupMembersResponse MonitoredResource)) = none ∧
      ∀ m : ListGroupMembersResponse MonitoredResource,
        ListGroupMembersResponse.GetMembers (some m) = m.Members) ∧
    (ListGroupMembersResponse.GetNextPageToken
        (none : Ptr (ListGroupMembersResponse MonitoredResource)) = "" ∧
      ∀ m : ListGroupMembersResponse MonitoredResource,
        ListGroupMembersResponse.GetNextPageToken (some m) = m.NextPageToken) ∧
    (ListGroupMembersResponse.GetTotalSize
        (none : Ptr (ListGroupMembersResponse MonitoredResource)) = 0 ∧
      ∀ m : ListGroupMembersResponse MonitoredResource,
        ListGroupMembersResponse.GetTotalSize (some m) = m.TotalSize) := by
  and_intros <;> first | rfl | (intro _; rfl)

/-- Whether the result of a getter is a returned non-empty string. -/
def isNonEmptyString (r : Except String String) : Bool :=
  match r with
  | Except.ok s => s != ""
  | Except.error _ => false

/-- C15: for every request, nil included, at most one of `GetChildrenOfGroup`,
`GetAncestorsOfGroup` and `GetDescendantsOfGroup` returns a non-empty string,
and when `GetFilter` is nil all three return the empty string. -/
theorem filter_exclusive (m : Ptr ListGroupsRequest) :
    ([ListGroupsRequest.GetChildrenOfGroup m, ListGroupsRequest.GetAncestorsOfGroup m,
      ListGroupsRequest.GetDescendantsOfGroup m].filter isNonEmptyString).length ≤ 1 ∧
    (ListGroupsRequest.GetFilter m = isListGroupsRequest_Filter.nil →
      ListGroupsRequest.GetChildrenOfGroup m = Except.ok "" ∧
      ListGroupsRequest.GetAncestorsOfGroup m = Except.ok "" ∧
      ListGroupsRequest.GetDescendantsOfGroup m = Except.ok "") := by
  constructor
  · unfold ListGroupsRequest.GetChildrenOfGroup ListGroupsRequest.GetAncestorsOfGroup
      ListGroupsRequest.GetDescendantsOfGroup
    cases ListGroupsRequest.GetFilter m with
    | nil => decide
    | ChildrenOfGroup x =>
      cases x with
      | none => decide
      | some x => by_cases h : x.ChildrenOfGroup = "" <;> simp [isNonEmptyString, h]
    | AncestorsOfGroup x =>
      cases x with
      | none => decide
      | some x => by_cases h : x.AncestorsOfGroup = "" <;> simp [isNonEmptyString, h]
    | DescendantsOfGroup x =>
      cases x with
      | none => decide
      | some x => by_cases h : x.DescendantsOfGroup = "" <;> simp [isNonEmptyString, h]
  · intro h
    simp [ListGroupsRequest.GetChildrenOfGroup, ListGroupsRequest.GetAncestorsOfGroup,
      ListGroupsRequest.GetDescendantsOfGroup, h]

/-- What a client method owes to the outcome of `Invoke`: with a non-nil error
`e` it returns nil and `e`; with a nil error it returns the reply object and a
nil error; so exactly one of the response and the error is nil. -/
def ClientContract {Resp : Type} (inv : Option GoError × Resp)
    (res : Ptr Resp × Option GoError) : Prop :=
  (∀ e, inv.1 = some e → res = (none, some e)) ∧
  (inv.1 = none → res = (some inv.2, none)) ∧
  (res.1 = none ↔ res.2 ≠ none)

theorem clientReturn_contract {Resp : Type} (inv : Option GoError × Resp) :
    ClientContract inv (clientReturn inv) := by
  unfold ClientContract clientReturn
  cases h : inv.1 with
  | none => simp
  | some e => simp

/-- C16: each of the six client methods, for every connection, context,
request and options, returns nil and the error of `Invoke` unchanged when that
error is non-nil, and the reply object handed to `Invoke` with a nil error
otherwise; the response and the error are never both nil nor both non-nil. -/
theorem client_result_or_error {Ctx CallOption Group TimeInterval MonitoredResource Empty : Type}
    [Inhabited Group] [Inhabited Empty] (c : groupServiceClient Ctx CallOption) (ctx : Ctx)
    (opts : List CallOption) :
    (∀ req, ClientContract
      (c.cc.Invoke ListGroupsRequest (ListGroupsResponse Group) ctx
        "/google.monitoring.v3.GroupService/ListGroups" req (ListGroupsResponse.zero Group) opts)
      (c.ListGroups ctx req opts)) ∧
    (∀ req, ClientContract
      (c.cc.Invoke GetGroupRequest Group ctx
        "/google.monitoring.v3.GroupService/GetGroup" req default opts)
      (c.GetGroup ctx req opts)) ∧
    (∀ req, ClientContract
      (c.cc.Invoke (CreateGroupRequest Group) Group ctx
        "/google.monitoring.v3.GroupService/CreateGroup" req default opts)
      (c.CreateGroup ctx req opts)) ∧
    (∀ req, ClientContract
      (c.cc.Invoke (UpdateGroupRequest Group) Group ctx
        "/google.monitoring.v3.GroupService/UpdateGroup" req default opts)
      (c.UpdateGroup ctx req opts)) ∧
    (∀ req, ClientContract
      (c.cc.Invoke DeleteGroupRequest Empty ctx
        "/google.monitoring.v3.GroupService/DeleteGroup" req default opts)
      (c.DeleteGroup ctx req opts)) ∧
    (∀ req, ClientContract
      (c.cc.Invoke (ListGroupMembersRequest TimeInterval)
        (ListGroupMembersResponse MonitoredResource) ctx
        "/google.monitoring.v3.GroupService/ListGroupMembers" req
        (ListGroupMembersResponse.zero MonitoredResource) opts)
      (c.ListGroupMembers ctx req opts)) := by
  refine ⟨?_, ?_, ?_, ?_, ?_, ?_⟩ <;> intro req <;> exact clientReturn_contract _

end Monitoring

namespace Monitoring

/-- The path of a method of a service: `/<ServiceName>/<name>`. -/
def fullMethod {Ctx Group TimeInterval MonitoredResource Empty : Type}
    (d : ServiceDesc Ctx Group TimeInterval MonitoredResource Empty) (name : String) : String :=
  "/" ++ d.ServiceName ++ "/" ++ name

/-- A decoder that succeeds and leaves the object as it is. -/
def decodeNothing : Decoder := fun _ x => (none, x)

/-- An interceptor that only reports the `FullMethod` it was given, as an error text. -/
def reportFullMethod {Ctx Group TimeInterval MonitoredResource Empty : Type} :
    UnaryServerInterceptor Ctx Group TimeInterval MonitoredResource Empty :=
  fun _ _ info _ => Except.ok (Any.nil, some (GoError.other info.FullMethod))

/-- An interceptor that calls the handler it was given with the context and request it got. -/
def passThrough {Ctx Group TimeInterval MonitoredResource Empty : Type} :
    UnaryServerInterceptor Ctx Group TimeInterval MonitoredResource Empty :=
  fun ctx req _ handler => handler ctx req

/-- The error of a handler result, when the handler returned. -/
def resultError {Group TimeInterval MonitoredResource Empty : Type}
    (r : HandlerResult Group TimeInterval MonitoredResource Empty) : Except String (Option GoError) :=
  match r with
  | Except.ok v => Except.ok v.2
  | Except.error p => Except.error p

theorem fullMethod_literals {Ctx Group TimeInterval MonitoredResource Empty : Type} :
    fullMethod (_GroupService_serviceDesc Ctx Group TimeInterval MonitoredResource Empty)
      "ListGroups" = "/google.monitoring.v3.GroupService/ListGroups" ∧
    fullMethod (_GroupService_serviceDesc Ctx Group TimeInterval MonitoredResource Empty)
      "GetGroup" = "/google.monitoring.v3.GroupService/GetGroup" ∧
    fullMethod (_GroupService_serviceDesc Ctx Group TimeInterval MonitoredResource Empty)
      "CreateGroup" = "/google.monitoring.v3.GroupService/CreateGroup" ∧
    fullMethod (_GroupService_serviceDesc Ctx Group TimeInterval MonitoredResource Empty)
      "UpdateGroup" = "/google.monitoring.v3.GroupService/UpdateGroup" ∧
    fullMethod (_GroupService_serviceDesc Ctx Group TimeInterval MonitoredResource Empty)
      "DeleteGroup" = "/google.monitoring.v3.GroupService/DeleteGroup" ∧
    fullMethod (_GroupService_serviceDesc Ctx Group TimeInterval MonitoredResource Empty)
      "ListGroupMembers" = "/google.monitoring.v3.GroupService/ListGroupMembers" := by
  refine ⟨?_, ?_, ?_, ?_, ?_, ?_⟩ <;> rfl

end Monitoring

namespace Monitoring

/-- What the handler `H` of a method owes, for the method path `path`, the
request type with its zero value and the server method `method`: when decoding
fails it returns nil and the error of the decoder; otherwise, without an
interceptor it returns what `method` of the server returns for the decoded
request (it panics when `srv` is no server), and with an interceptor it returns
what the interceptor returns for the context, the decoded request, an info
holding `srv` and `path`, and a handler that calls `method` of the server. -/
def HandlerContract {Ctx Group TimeInterval MonitoredResource Empty Req Resp : Type}
    (H : methodHandler Ctx Group TimeInterval MonitoredResource Empty) (path : String)
    (zero : Req) (wrapReq : Ptr Req → Any Group TimeInterval MonitoredResource Empty)
    (wrapResp : Ptr Resp → Any Group TimeInterval MonitoredResource Empty)
    (method : GroupServiceServer Ctx Group TimeInterval MonitoredResource Empty →
      Ctx → Ptr Req → Ptr Resp × Option GoError) : Prop :=
  ∀ (srv : Option (GroupServiceServer Ctx Group TimeInterval MonitoredResource Empty))
    (ctx : Ctx) (dec : Decoder),
    (∀ err, (dec Req zero).1 = some err → ∀ ic, H srv ctx dec ic = Except.ok (Any.nil, some err)) ∧
    ((dec Req zero).1 = none →
      (∀ s, srv = some s → H srv ctx dec none =
        Except.ok (wrapResp (method s ctx (some (dec Req zero).2)).1,
          (method s ctx (some (dec Req zero).2)).2)) ∧
      (srv = none → H srv ctx dec none = Except.error interfaceConversion) ∧
      (∀ ic, ∃ h, H srv ctx dec (some ic) =
          ic ctx (wrapReq (some (dec Req zero).2)) { Server := srv, FullMethod := path } h ∧
        (∀ s c p, srv = some s →
          h c (wrapReq p) = Except.ok (wrapResp (method s c p).1, (method s c p).2))))

theorem listGroups_handler_contract {Ctx Group TimeInterval MonitoredResource Empty : Type} :
    HandlerContract
      (_GroupService_ListGroups_Handler :
        methodHandler Ctx Group TimeInterval MonitoredResource Empty)
      "/google.monitoring.v3.GroupService/ListGroups" ListGroupsRequest.zero
      Any.ptrListGroupsRequest Any.ptrListGroupsResponse (fun s => s.ListGroups) := by
  intro srv ctx dec
  refine ⟨?_, ?_⟩
  · intro err h ic
    simp only [_GroupService_ListGroups_Handler, h]
  · intro h
    refine ⟨?_, ?_, ?_⟩
    · intro s hs
      subst hs
      simp only [_GroupService_ListGroups_Handler, h]
    · intro hs
      subst hs
      simp only [_GroupService_ListGroups_Handler, h]
    · intro ic
      refine ⟨?w, ?_, ?_⟩
      case w =>
        exact fun c req =>
          match srv, req with
          | some s, Any.ptrListGroupsRequest p =>
            Except.ok (Any.ptrListGroupsResponse (s.ListGroups c p).1, (s.ListGroups c p).2)
          | _, _ => Except.error interfaceConversion
      · simp only [_GroupService_ListGroups_Handler, h]
      · intro s c p hs
        subst hs
        rfl

end Monitoring

namespace Monitoring

theorem getGroup_handler_contract {Ctx Group TimeInterval MonitoredResource Empty : Type} :
    HandlerContract
      (_GroupService_GetGroup_Handler :
        methodHandler Ctx Group TimeInterval MonitoredResource Empty)
      "/google.monitoring.v3.GroupService/GetGroup" GetGroupRequest.zero
      Any.ptrGetGroupRequest Any.ptrGroup (fun s => s.GetGroup) := by
  intro srv ctx dec
  refine ⟨?_, ?_⟩
  · intro err h ic
    simp only [_GroupService_GetGroup_Handler, h]
  · intro h
    refine ⟨?_, ?_, ?_⟩
    · intro s hs
      subst hs
      simp only [_GroupService_GetGroup_Handler, h]
    · intro hs
      subst hs
      simp only [_GroupService_GetGroup_Handler, h]
    · intro ic
      refine ⟨?w, ?_, ?_⟩
      case w =>
        exact fun c req =>
          match srv, req with
          | some s, Any.ptrGetGroupRequest p =>
            Except.ok (Any.ptrGroup (s.GetGroup c p).1, (s.GetGroup c p).2)
          | _, _ => Except.error interfaceConversion
      · simp only [_GroupService_GetGroup_Handler, h]
      · intro s c p hs
        subst hs
        rfl

theorem createGroup_handler_contract {Ctx Group TimeInterval MonitoredResource Empty : Type} :
    HandlerContract
      (_GroupService_CreateGroup_Handler :
        methodHandler Ctx Group TimeInterval MonitoredResource Empty)
      "/google.monitoring.v3.GroupService/CreateGroup" (CreateGroupRequest.zero Group)
      Any.ptrCreateGroupRequest Any.ptrGroup (fun s => s.CreateGroup) := by
  intro srv ctx dec
  refine ⟨?_, ?_⟩
  · intro err h ic
    simp only [_GroupService_CreateGroup_Handler, h]
  · intro h
    refine ⟨?_, ?_, ?_⟩
    · intro s hs
      subst hs
      simp only [_GroupService_CreateGroup_Handler, h]
    · intro hs
      subst hs
      simp only [_GroupService_CreateGroup_Handler, h]
    · intro ic
      refine ⟨?w, ?_, ?_⟩
      case w =>
        exact fun c req =>
          match srv, req with
          | some s, Any.ptrCreateGroupRequest p =>
            Except.ok (Any.ptrGroup (s.CreateGroup c p).1, (s.CreateGroup c p).2)
          | _, _ => Except.error interfaceConversion
      · simp only [_GroupService_CreateGroup_Handler, h]
      · intro s c p hs
        subst hs
        rfl

theorem updateGroup_handler_contract {Ctx Group TimeInterval MonitoredResource Empty : Type} :
    HandlerContract
      (_GroupService_UpdateGroup_Handler :
        methodHandler Ctx Group TimeInterval MonitoredResource Empty)
      "/google.monitoring.v3.GroupService/UpdateGroup" (UpdateGroupRequest.zero Group)
      Any.ptrUpdateGroupRequest Any.ptrGroup (fun s => s.UpdateGroup) := by
  intro srv ctx dec
  refine ⟨?_, ?_⟩
  · intro err h ic
    simp only [_GroupService_UpdateGroup_Handler, h]
  · intro h
    refine ⟨?_, ?_, ?_⟩
    · intro s hs
      subst hs
      simp only [_GroupService_UpdateGroup_Handler, h]
    · intro hs
      subst hs
      simp only [_GroupService_UpdateGroup_Handler, h]
    · intro ic
      refine ⟨?w, ?_, ?_⟩
      case w =>
        exact fun c req =>
          match srv, req with
          | some s, Any.ptrUpdateGroupRequest p =>
            Except.ok (Any.ptrGroup (s.UpdateGroup c p).1, (s.UpdateGroup c p).2)
          | _, _ => Except.error interfaceConversion
      · simp only [_GroupService_UpdateGroup_Handler, h]
      · intro s c p hs
        subst hs
        rfl

theorem deleteGroup_handler_contract {Ctx Group TimeInterval MonitoredResource Empty : Type} :
    HandlerContract
      (_GroupService_DeleteGroup_Handler :
        methodHandler Ctx Group TimeInterval MonitoredResource Empty)
      "/google.monitoring.v3.GroupService/DeleteGroup" DeleteGroupRequest.zero
      Any.ptrDeleteGroupRequest Any.ptrEmpty (fun s => s.DeleteGroup) := by
  intro srv ctx dec
  refine ⟨?_, ?_⟩
  · intro err h ic
    simp only [_GroupService_DeleteGroup_Handler, h]
  · intro h
    refine ⟨?_, ?_, ?_⟩
    · intro s hs
      subst hs
      simp only [_GroupService_DeleteGroup_Handler, h]
    · intro hs
      subst hs
      simp only [_GroupService_DeleteGroup_Handler, h]
    · intro ic
      refine ⟨?w, ?_, ?_⟩
      case w =>
        exact fun c req =>
          match srv, req with
          | some s, Any.ptrDeleteGroupRequest p =>
            Except.ok (Any.ptrEmpty (s.DeleteGroup c p).1, (s.DeleteGroup c p).2)
          | _, _ => Except.error interfaceConversion
      · simp only [_GroupService_DeleteGroup_Handler, h]
      · intro s c p hs
        subst hs
        rfl

theorem listGroupMembers_handler_contract {Ctx Group TimeInterval MonitoredResource Empty : Type} :
    HandlerContract
      (_GroupService_ListGroupMembers_Handler :
        methodHandler Ctx Group TimeInterval MonitoredResource Empty)
      "/google.monitoring.v3.GroupService/ListGroupMembers" (ListGroupMembersRequest.zero TimeInterval)
      Any.ptrListGroupMembersRequest Any.ptrListGroupMembersResponse (fun s => s.ListGroupMembers) := by
  intro srv ctx dec
  refine ⟨?_, ?_⟩
  · intro err h ic
    simp only [_GroupService_ListGroupMembers_Handler, h]
  · intro h
    refine ⟨?_, ?_, ?_⟩
    · intro s hs
      subst hs
      simp only [_GroupService_ListGroupMembers_Handler, h]
    · intro hs
      subst hs
      simp only [_GroupService_ListGroupMembers_Handler, h]
    · intro ic
      refine ⟨?w, ?_, ?_⟩
      case w =>
        exact fun c req =>
          match srv, req with
          | some s, Any.ptrListGroupMembersRequest p =>
            Except.ok (Any.ptrListGroupMembersResponse (s.ListGroupMembers c p).1, (s.ListGroupMembers c p).2)
          | _, _ => Except.error interfaceConversion
      · simp only [_GroupService_ListGroupMembers_Handler, h]
      · intro s c p hs
        subst hs
        rfl

/-- C17: `_GroupService_serviceDesc` lists exactly six methods with pairwise
distinct names and no streams; for each entry with name `N` the handler, given
an interceptor, reports the path `/` + ServiceName + `/` + `N` as FullMethod
and, on the unimplemented server, ends in the method named `N`; the handlers
of the entries are the `_GroupService_N_Handler` in the order of the names, each
meeting the handler contract for its path and its server method; and the client
method `N` invokes the same path. -/
theorem method_names_consistent {Ctx Group TimeInterval MonitoredResource Empty CallOption : Type}
    [Inhabited Group] [Inhabited Empty] :
    (_GroupService_serviceDesc Ctx Group TimeInterval MonitoredResource Empty).Methods.map (fun e => e.MethodName) =
      ["ListGroups", "GetGroup", "CreateGroup", "UpdateGroup", "DeleteGroup", "ListGroupMembers"] ∧
    ((_GroupService_serviceDesc Ctx Group TimeInterval MonitoredResource Empty).Methods.map (fun e => e.MethodName)).Nodup ∧
    (_GroupService_serviceDesc Ctx Group TimeInterval MonitoredResource Empty).Methods.length = 6 ∧
    (_GroupService_serviceDesc Ctx Group TimeInterval MonitoredResource Empty).Streams = [] ∧
    (_GroupService_serviceDesc Ctx Group TimeInterval MonitoredResource Empty).ServiceName = "google.monitoring.v3.GroupService" ∧
    (∀ e ∈ (_GroupService_serviceDesc Ctx Group TimeInterval MonitoredResource Empty).Methods,
      ∀ (srv : Option (GroupServiceServer Ctx Group TimeInterval MonitoredResource Empty)) (ctx : Ctx),
        e.Handler srv ctx decodeNothing (some reportFullMethod) =
          Except.ok (Any.nil, some (GoError.other
            (fullMethod (_GroupService_serviceDesc Ctx Group TimeInterval MonitoredResource Empty) e.MethodName)))) ∧
    (∀ e ∈ (_GroupService_serviceDesc Ctx Group TimeInterval MonitoredResource Empty).Methods,
      ∀ (ctx : Ctx),
        resultError (e.Handler
          (some (UnimplementedGroupServiceServer.asServer Ctx Group TimeInterval MonitoredResource Empty none))
          ctx decodeNothing none) =
          Except.ok (status.Errorf codes.Code.Unimplemented
            ("method " ++ e.MethodName ++ " not implemented")) ∧
        resultError (e.Handler
          (some (UnimplementedGroupServiceServer.asServer Ctx Group TimeInterval MonitoredResource Empty none))
          ctx decodeNothing (some passThrough)) =
          Except.ok (status.Errorf codes.Code.Unimplemented
            ("method " ++ e.MethodName ++ " not implemented"))) ∧
    (_GroupService_serviceDesc Ctx Group TimeInterval MonitoredResource Empty).Methods.map (fun e => e.Handler) =
      [_GroupService_ListGroups_Handler,
       _GroupService_GetGroup_Handler,
       _GroupService_CreateGroup_Handler,
       _GroupService_UpdateGroup_Handler,
       _GroupService_DeleteGroup_Handler,
       _GroupService_ListGroupMembers_Handler] ∧
    HandlerContract
      (_GroupService_ListGroups_Handler : methodHandler Ctx Group TimeInterval MonitoredResource Empty)
      (fullMethod (_GroupService_serviceDesc Ctx Group TimeInterval MonitoredResource Empty) "ListGroups")
      ListGroupsRequest.zero Any.ptrListGroupsRequest Any.ptrListGroupsResponse (fun s => s.ListGroups) ∧
    HandlerContract
      (_GroupService_GetGroup_Handler : methodHandler Ctx Group TimeInterval MonitoredResource Empty)
      (fullMethod (_GroupService_serviceDesc Ctx Group TimeInterval MonitoredResource Empty) "GetGroup")
      GetGroupRequest.zero Any.ptrGetGroupRequest Any.ptrGroup (fun s => s.GetGroup) ∧
    HandlerContract
      (_GroupService_CreateGroup_Handler : methodHandler Ctx Group TimeInterval MonitoredResource Empty)
      (fullMethod (_GroupService_serviceDesc Ctx Group TimeInterval MonitoredResource Empty) "CreateGroup")
      (CreateGroupRequest.zero Group) Any.ptrCreateGroupRequest Any.ptrGroup (fun s => s.CreateGroup) ∧
    HandlerContract
      (_GroupService_UpdateGroup_Handler : methodHandler Ctx Group TimeInterval MonitoredResource Empty)
      (fullMethod (_GroupService_serviceDesc Ctx Group TimeInterval MonitoredResource Empty) "UpdateGroup")
      (UpdateGroupRequest.zero Group) Any.ptrUpdateGroupRequest Any.ptrGroup (fun s => s.UpdateGroup) ∧
    HandlerContract
      (_GroupService_DeleteGroup_Handler : methodHandler Ctx Group TimeInterval MonitoredResource Empty)
      (fullMethod (_GroupService_serviceDesc Ctx Group TimeInterval MonitoredResource Empty) "DeleteGroup")
      DeleteGroupRequest.zero Any.ptrDeleteGroupRequest Any.ptrEmpty (fun s => s.DeleteGroup) ∧
    HandlerContract
      (_GroupService_ListGroupMembers_Handler : methodHandler Ctx Group TimeInterval MonitoredResource Empty)
      (fullMethod (_GroupService_serviceDesc Ctx Group TimeInterval MonitoredResource Empty) "ListGroupMembers")
      (ListGroupMembersRequest.zero TimeInterval) Any.ptrListGroupMembersRequest Any.ptrListGroupMembersResponse (fun s => s.ListGroupMembers) ∧
    (∀ (c : groupServiceClient Ctx CallOption) (ctx : Ctx) (req : Ptr ListGroupsRequest)
        (opts : List CallOption),
      (c.ListGroups ctx req opts : Ptr (ListGroupsResponse Group) × Option GoError) =
        clientReturn (c.cc.Invoke ListGroupsRequest (ListGroupsResponse Group) ctx
          (fullMethod (_GroupService_serviceDesc Ctx Group TimeInterval MonitoredResource Empty) "ListGroups")
          req (ListGroupsResponse.zero Group) opts)) ∧
    (∀ (c : groupServiceClient Ctx CallOption) (ctx : Ctx) (req : Ptr GetGroupRequest)
        (opts : List CallOption),
      (c.GetGroup ctx req opts : Ptr Group × Option GoError) =
        clientReturn (c.cc.Invoke GetGroupRequest Group ctx
          (fullMethod (_GroupService_serviceDesc Ctx Group TimeInterval MonitoredResource Empty) "GetGroup")
          req default opts)) ∧
    (∀ (c : groupServiceClient Ctx CallOption) (ctx : Ctx) (req : Ptr (CreateGroupRequest Group))
        (opts : List CallOption),
      (c.CreateGroup ctx req opts : Ptr Group × Option GoError) =
        clientReturn (c.cc.Invoke (CreateGroupRequest Group) Group ctx
          (fullMethod (_GroupService_serviceDesc Ctx Group TimeInterval MonitoredResource Empty) "CreateGroup")
          req default opts)) ∧
    (∀ (c : groupServiceClient Ctx CallOption) (ctx : Ctx) (req : Ptr (UpdateGroupRequest Group))
        (opts : List CallOption),
      (c.UpdateGroup ctx req opts : Ptr Group × Option GoError) =
        clientReturn (c.cc.Invoke (UpdateGroupRequest Group) Group ctx
          (fullMethod (_GroupService_serviceDesc Ctx Group TimeInterval MonitoredResource Empty) "UpdateGroup")
          req default opts)) ∧
    (∀ (c : groupServiceClient Ctx CallOption) (ctx : Ctx) (req : Ptr DeleteGroupRequest)
        (opts : List CallOption),
      (c.DeleteGroup ctx req opts : Ptr Empty × Option GoError) =
        clientReturn (c.cc.Invoke DeleteGroupRequest Empty ctx
          (fullMethod (_GroupService_serviceDesc Ctx Group TimeInterval MonitoredResource Empty) "DeleteGroup")
          req default opts)) ∧
    (∀ (c : groupServiceClient Ctx CallOption) (ctx : Ctx) (req : Ptr (ListGroupMembersRequest TimeInterval))
        (opts : List CallOption),
      (c.ListGroupMembers ctx req opts : Ptr (ListGroupMembersResponse MonitoredResource) × Option GoError) =
        clientReturn (c.cc.Invoke (ListGroupMembersRequest TimeInterval) (ListGroupMembersResponse MonitoredResource) ctx
          (fullMethod (_GroupService_serviceDesc Ctx Group TimeInterval MonitoredResource Empty) "ListGroupMembers")
          req (ListGroupMembersResponse.zero MonitoredResource) opts)) := by
  refine ⟨rfl, ?_, rfl, rfl, rfl, ?_, ?_, rfl, listGroups_handler_contract,
    getGroup_handler_contract, createGroup_handler_contract, updateGroup_handler_contract,
    deleteGroup_handler_contract, listGroupMembers_handler_contract,
    fun _ _ _ _ => rfl, fun _ _ _ _ => rfl, fun _ _ _ _ => rfl, fun _ _ _ _ => rfl,
    fun _ _ _ _ => rfl, fun _ _ _ _ => rfl⟩
  · show (["ListGroups", "GetGroup", "CreateGroup", "UpdateGroup", "DeleteGroup",
      "ListGroupMembers"] : List String).Nodup
    decide
  · intro e he srv ctx
    simp only [_GroupService_serviceDesc, List.mem_cons, List.mem_singleton, List.not_mem_nil,
      or_false] at he
    rcases he with rfl | rfl | rfl | rfl | rfl | rfl <;> rfl
  · intro e he ctx
    simp only [_GroupService_serviceDesc, List.mem_cons, List.mem_singleton, List.not_mem_nil,
      or_false] at he
    rcases he with rfl | rfl | rfl | rfl | rfl | rfl <;> exact ⟨rfl, rfl⟩

end Monitoring
